import Mathlib

/-!
Shallow embedding of the provisioning-and-billing core of the repository:
`reseller_pricing_service.get_active_pricing_for_reseller`,
`marzban_user_service.create_marzban_user_for_reseller`,
`marzban_user_service.modify_marzban_user_for_reseller`,
`marzban_user_service.sync_marzban_users_for_reseller_panel`,
and the error-message construction of `marzban_api_client.create_marzban_user`.

Monetary values (Python Decimal) are modelled as rationals; `Decimal.quantize`
with two places and ROUND_HALF_UP is modelled by `quantize2`.  Timestamps are
integers counting seconds.  Every Python exception raised by the services is an
instance of the single class MarzbanUserServiceError; the embedding records the
raise site (an inductive tag) together with the message, and a separate
function `pyClass` gives the Python exception class of each site.
-/

namespace Haned

/-- Python Decimal.quantize(Decimal(0.01), rounding=ROUND_HALF_UP):
round to two decimal places, ties away from zero. -/
def quantize2 (x : ℚ) : ℚ :=
  if 0 ≤ x then ((⌊x * 100 + 1 / 2⌋ : ℤ) : ℚ) / 100
  else -(((⌊-x * 100 + 1 / 2⌋ : ℤ) : ℚ) / 100)

/-- Python int() applied to a rational value: truncation toward zero. -/
def pyInt (x : ℚ) : ℤ :=
  if 0 ≤ x then ⌊x⌋ else ⌈x⌉

/-- marzban_user_service.gb_to_bytes (on a present value). -/
def gb_to_bytes (gb : ℚ) : ℤ :=
  pyInt (gb * 1073741824)

/-- Python truthiness test for an optional string: None and the empty
string are falsy (`if not marzban_username`, `if not token`, ...). -/
def truthyStr : Option String → Option String
  | none => none
  | some s => if s == "" then none else some s

/-- db.models.pricing_plan.PricingPlan (fields used by the services). -/
structure PricingPlan where
  id : Nat
  name : String
  duration_days : Int
  price : ℚ
deriving Repr, DecidableEq

/-- db.models.reseller_pricing.ResellerPricing.  `pricing_plan_id` and the
loaded relationship `pricing_plan` are kept as separate fields because the
source tests both (`active_pricing.pricing_plan_id is not None and
active_pricing.pricing_plan`). -/
structure ResellerPricing where
  id : Nat
  reseller_id : Nat
  pricing_plan_id : Option Nat
  pricing_plan : Option PricingPlan
  custom_price_per_gb : Option ℚ
  marzban_panel_id : Option Nat
deriving Repr, DecidableEq

/-- db.models.reseller.Reseller (fields used by the services).
`panels` is the list of panel ids reachable through reseller.panels. -/
structure Reseller where
  id : Nat
  marzban_admin_id : Int
  wallet_balance : ℚ
  allow_negative_balance : Bool
  panels : List Nat
deriving Repr, DecidableEq

/-- reseller_pricing_service.get_active_pricing_for_reseller.
The pricing table is a list in query order; `.first()` is `List.head?` of the
filtered list.  Panel-specific configuration is looked up first, then the
generic (marzban_panel_id is NULL) configuration. -/
def get_active_pricing_for_reseller (db : List ResellerPricing)
    (reseller_id : Nat) (marzban_panel_id : Option Nat) : Option ResellerPricing :=
  let pricing : Option ResellerPricing :=
    match marzban_panel_id with
    | none => none
    | some pid =>
        (db.filter (fun p =>
          p.reseller_id == reseller_id && p.marzban_panel_id == some pid)).head?
  match pricing with
  | some p => some p
  | none =>
      (db.filter (fun p =>
        p.reseller_id == reseller_id && p.marzban_panel_id == none)).head?

/-- db.models.marzban_panel.MarzbanPanel (fields used by the services). -/
structure MarzbanPanel where
  id : Nat
  name : String
deriving Repr, DecidableEq

/-- schemas.transaction.TransactionCreate / db.models.transaction.Transaction
(fields the services fill in; timestamps and description elided into
`description`). -/
structure Transaction where
  reseller_id : Nat
  transaction_type : String
  amount : ℚ
  pricing_plan_id : Option Nat
  reseller_pricing_id : Option Nat
deriving Repr, DecidableEq

/-- The single Python exception class every raise site of
marzban_user_service uses: MarzbanUserServiceError(message). -/
inductive PyExc where
  | serviceError (message : String)
deriving Repr, DecidableEq

/-- The Python class name of a surfaced exception. -/
def PyExc.className : PyExc → String
  | .serviceError _ => "MarzbanUserServiceError"

def PyExc.message : PyExc → String
  | .serviceError m => m

/-- utils.marzban_api_client.MarzbanAPIError: message plus optional
upstream HTTP status code. -/
structure MarzbanAPIErr where
  message : String
  status_code : Option Int
deriving Repr, DecidableEq

/-- The shape of the `detail` field of an HTTP error response, as
marzban_api_client.create_marzban_user distinguishes it:
a dict containing the key username (detailMessage stands for
detail[username][0] when that value is a list, else detail[username]),
a plain string, or any other structure (via str(detail)). -/
inductive HttpErrorDetail where
  | usernameDict (detailMessage : String)
  | plain (s : String)
  | other (asString : String)
deriving Repr, DecidableEq

/-- The error message marzban_api_client.create_marzban_user builds from an
HTTPError response (lines 158-173).  Quoting punctuation of the source
message is preserved verbatim except for apostrophes, which the source does
not use in these particular messages. -/
def createUserClientErrorMessage (status : Int) (detail : HttpErrorDetail) : String :=
  match detail with
  | .usernameDict m =>
      "Failed to create Marzban user (HTTP " ++ toString status ++ "): Username - " ++ m
  | .plain s =>
      "Failed to create Marzban user (HTTP " ++ toString status ++ "): " ++ s
  | .other r =>
      "Failed to create Marzban user (HTTP " ++ toString status ++ "): " ++ r

/-- The MarzbanAPIError raised by marzban_api_client.create_marzban_user for
an HTTPError response. -/
def createUserClientError (status : Int) (detail : HttpErrorDetail) : MarzbanAPIErr :=
  { message := createUserClientErrorMessage status detail, status_code := some status }

/-- Raise sites of create_marzban_user_for_reseller, in source order. -/
inductive CreateErr where
  | accessDenied (panelId : Nat)
  | panelNotFound (panelId : Nat)
  | noPricing
  | gbValidation
  | invalidPricing
  | insufficientFunds (required available : ℚ)
  | credentials (panelName : String)
  | authFailed (panelName : String)
  | remoteApi (clientMessage : String)
  | unexpectedResponse
  | dbError (dbMessage : String) (username : String) (panelName : String)
deriving Repr, DecidableEq

/-- The Python exception each raise site of create_marzban_user_for_reseller
constructs.  Every site builds the same class, MarzbanUserServiceError; the
message templates follow the source f-strings (numbers via toString instead
of Decimal formatting, single quotes around interpolated values elided). -/
def CreateErr.toPyExc : CreateErr → PyExc
  | .accessDenied pid =>
      .serviceError ("Reseller does not have access to Marzban panel ID " ++ toString pid ++ ".")
  | .panelNotFound pid =>
      .serviceError ("Target Marzban panel ID " ++ toString pid ++ " not found.")
  | .noPricing =>
      .serviceError "No active pricing configuration found for this reseller and panel. Please contact admin."
  | .gbValidation =>
      .serviceError "Data limit (data_limit_gb) must be provided and positive for custom GB pricing."
  | .invalidPricing =>
      .serviceError "Invalid pricing configuration found. Contact admin."
  | .insufficientFunds required available =>
      .serviceError ("Insufficient wallet balance. Required: " ++ toString required
        ++ ", Available: " ++ toString available ++ ".")
  | .credentials panelName =>
      .serviceError ("Could not retrieve credentials for panel " ++ panelName ++ ".")
  | .authFailed panelName =>
      .serviceError ("Failed to authenticate with Marzban panel " ++ panelName ++ ".")
  | .remoteApi clientMessage =>
      .serviceError ("Marzban API error: " ++ clientMessage)
  | .unexpectedResponse =>
      .serviceError "Failed to create user on Marzban panel or received unexpected response."
  | .dbError dbMessage username panelName =>
      .serviceError ("Database error after Marzban user creation: " ++ dbMessage
        ++ ". Manual reconciliation may be needed for user " ++ username
        ++ " on panel " ++ panelName ++ ".")

/-- schemas.marzban_user.ResellerMarzbanUserCreateRequest (fields the
service branches on; proxies/inbounds/telegram_id are passed through to the
remote call opaquely and carry no control flow, so they are elided). -/
structure CreateRequest where
  marzban_panel_id : Nat
  username : String
  data_limit_gb : Option ℚ
  expire_days : Option Int
  note : Option String
deriving Repr, DecidableEq

/-- The remote response of the create call, as far as the service inspects
it: response.get("username"). -/
structure RemoteCreateResponse where
  username : Option String
deriving Repr, DecidableEq

/-- Environment of one create_marzban_user_for_reseller run: the results of
the surrounding effectful queries/calls, in program order.
`panel_lookup` is db.query(MarzbanPanel).filter(id == request panel id).first();
`now` is datetime.utcnow() as a Unix second count (used by days_to_timestamp);
`token` is the value returned by get_marzban_access_token (the path where that
helper itself raises is outside this embedding);
`remote_create` is the outcome of marzban_api_client.create_marzban_user;
`db_commit_ok` is whether the final local commit succeeds, with
`db_error_message` the str() of the exception when it fails. -/
structure CreateEnv where
  panel_lookup : Option MarzbanPanel
  now : Int
  decrypted_password : Option String
  token : Option String
  remote_create : Except MarzbanAPIErr RemoteCreateResponse
  db_commit_ok : Bool
  db_error_message : String
deriving Repr

/-- Observable side effects of one orchestrator run: whether a remote
mutation was issued, the ledger rows durably committed, and the committed
change to wallet_balance. -/
structure Effects where
  remote_create_called : Bool := false
  remote_update_called : Bool := false
  sent_payload : Option (Option Int × Option Int) := none
  ledger_entries : List Transaction := []
  wallet_delta : ℚ := 0
deriving Repr, DecidableEq

/-- No effect has happened yet. -/
def Effects.none : Effects := {}

/-- Success payload of create_marzban_user_for_reseller: the committed
wallet balance and the mirror row fields the claims mention. -/
structure CreateSuccess where
  new_wallet_balance : ℚ
  mirror_username : String
  created_by_new_panel : Bool
deriving Repr, DecidableEq

/-- Outcome of a run: the returned value or the raised error, together with
the effects that are durable at that point. -/
structure CreateOutcome where
  result : Except CreateErr CreateSuccess
  effects : Effects
deriving Repr

/-- Step 2 of create_marzban_user_for_reseller (lines 446-470): determine
cost from the resolved pricing row.  Returns the cost together with
pricing_plan_id_for_tx. -/
def createCost (ap : ResellerPricing) (data_limit_gb : Option ℚ) :
    Except CreateErr (ℚ × Option Nat) :=
  match ap.custom_price_per_gb with
  | some rate =>
      match data_limit_gb with
      | none => .error .gbValidation
      | some gb =>
          if gb ≤ 0 then .error .gbValidation
          else .ok (quantize2 (gb * rate), none)
  | none =>
      match ap.pricing_plan_id, ap.pricing_plan with
      | some pid, some plan => .ok (plan.price, some pid)
      | _, _ => .error .invalidPricing

/-- Steps 4-5 of create_marzban_user_for_reseller (lines 478-575):
credentials, token, the remote create call, and the local commit of wallet
debit, mirror row and ledger row (all rolled back together on a commit
failure). -/
def createRemoteAndCommit (env : CreateEnv) (reseller : Reseller)
    (target_panel : MarzbanPanel) (active_pricing : ResellerPricing)
    (cost : ℚ) (pricing_plan_id_for_tx : Option Nat) : CreateOutcome :=
  match env.decrypted_password with
  | none => ⟨.error (.credentials target_panel.name), .none⟩
  | some _ =>
    match truthyStr env.token with
    | none => ⟨.error (.authFailed target_panel.name), .none⟩
    | some _ =>
      -- remote create call
      match env.remote_create with
      | .error e =>
          ⟨.error (.remoteApi e.message), { Effects.none with remote_create_called := true }⟩
      | .ok resp =>
        match truthyStr resp.username with
        | none =>
            ⟨.error .unexpectedResponse, { Effects.none with remote_create_called := true }⟩
        | some remote_username =>
          -- Step 5: local commit (wallet debit, mirror row, ledger row)
          if env.db_commit_ok then
            ⟨.ok { new_wallet_balance := reseller.wallet_balance - cost,
                   mirror_username := remote_username,
                   created_by_new_panel := true },
             { Effects.none with
                 remote_create_called := true,
                 ledger_entries :=
                   [{ reseller_id := reseller.id,
                      transaction_type := "user_creation_cost",
                      amount := -cost,
                      pricing_plan_id := pricing_plan_id_for_tx,
                      reseller_pricing_id := some active_pricing.id }],
                 wallet_delta := -cost }⟩
          else
            -- rollback: no durable local change
            ⟨.error (.dbError env.db_error_message remote_username target_panel.name),
             { Effects.none with remote_create_called := true }⟩

/-- marzban_user_service.create_marzban_user_for_reseller (lines 425-575).
`pricing_db` is the reseller_pricings table in query order. -/
def create_marzban_user_for_reseller (pricing_db : List ResellerPricing)
    (env : CreateEnv) (reseller : Reseller) (req : CreateRequest) : CreateOutcome :=
  -- Step 1: panel access check
  if ¬ reseller.panels.contains req.marzban_panel_id then
    ⟨.error (.accessDenied req.marzban_panel_id), .none⟩
  else
    match env.panel_lookup with
    | none => ⟨.error (.panelNotFound req.marzban_panel_id), .none⟩
    | some target_panel =>
      -- Step 2: determine cost
      match get_active_pricing_for_reseller pricing_db reseller.id (some target_panel.id) with
      | none => ⟨.error .noPricing, .none⟩
      | some active_pricing =>
        match createCost active_pricing req.data_limit_gb with
        | .error e => ⟨.error e, .none⟩
        | .ok (cost, pricing_plan_id_for_tx) =>
          -- Step 3: wallet check
          if reseller.wallet_balance < cost ∧ ¬ reseller.allow_negative_balance then
            ⟨.error (.insufficientFunds cost reseller.wallet_balance), .none⟩
          else
            createRemoteAndCommit env reseller target_panel active_pricing
              cost pricing_plan_id_for_tx

/-- schemas.marzban_user.ResellerMarzbanUserUpdateRequest (fields the
service branches on; proxies/inbounds are opaque payloads, only their
presence matters for control flow). -/
structure ModifyRequest where
  data_limit_gb : Option ℚ
  expire_days_to_add : Option Int
  proxies_present : Bool
  inbounds_present : Bool
  note : Option String
deriving Repr, DecidableEq

/-- db.models.marzban_user.MarzbanUser as modify_marzban_user_for_reseller
reads it: `stored_expire` is int(api_response_data.get("expire")) when the
stored payload carries that key, else none. -/
structure LocalMarzbanUser where
  id : Nat
  marzban_username : String
  stored_expire : Option Int
  notes : Option String
deriving Repr, DecidableEq

/-- The PATCH payload assembled for the remote panel; only presence of
proxies/inbounds is tracked. -/
structure UpdatePayload where
  data_limit : Option ℤ := none
  expire : Option ℤ := none
  proxies : Bool := false
  inbounds : Bool := false
deriving Repr, DecidableEq

/-- Python truthiness of the payload dict: falsy iff no key was set. -/
def UpdatePayload.isEmpty (p : UpdatePayload) : Bool :=
  p.data_limit == none && p.expire == none && !p.proxies && !p.inbounds

/-- Lines 234-246 of modify_marzban_user_for_reseller: the new remote expiry
sent to the panel.  `now` is datetime.utcnow() in Unix seconds; the stored
expiry is used as the base only when it is truthy, positive and still in the
future, else the base is now; the requested days are added as seconds. -/
def newExpireTs (now : Int) (stored_expire : Option Int) (days : Int) : Int :=
  let current_expire_dt : Int :=
    match stored_expire with
    | some ts => if 0 < ts ∧ now < ts then ts else now
    | none => now
  current_expire_dt + days * 86400

/-- Raise sites of modify_marzban_user_for_reseller, in source order. -/
inductive ModifyErr where
  | userNotFound
  | panelMissing
  | gbNotPositive
  | noGbPricing
  | daysNotPositive
  | noRenewalPlan
  | durationMismatch (requested planDuration : Int)
  | nothingToUpdate
  | insufficientFunds (required available : ℚ)
  | credentials (panelName : String)
  | authFailed (panelName : String)
  | remoteApi (clientMessage : String)
  | unexpectedResponse
  | dbError (dbMessage : String) (username : String) (panelName : String)
deriving Repr, DecidableEq

/-- The Python exception each raise site of modify_marzban_user_for_reseller
constructs: always the single class MarzbanUserServiceError (message
templates as in the source, numeric interpolation via toString, quotes
around interpolated values elided). -/
def ModifyErr.toPyExc : ModifyErr → PyExc
  | .userNotFound =>
      .serviceError "Marzban user not found or does not belong to this reseller."
  | .panelMissing =>
      .serviceError "Marzban panel details not found for this user."
  | .gbNotPositive =>
      .serviceError "data_limit_gb must be positive if provided."
  | .noGbPricing =>
      .serviceError "Cannot modify data_limit_gb: No custom GB pricing found for this reseller on this panel."
  | .daysNotPositive =>
      .serviceError "expire_days_to_add must be positive if provided."
  | .noRenewalPlan =>
      .serviceError "Cannot extend expiry: No suitable pricing plan found for renewal for this reseller on this panel."
  | .durationMismatch requested planDuration =>
      .serviceError ("Cannot extend expiry: Requested duration " ++ toString requested
        ++ " days does not match assigned plan duration " ++ toString planDuration ++ " days.")
  | .nothingToUpdate =>
      .serviceError "Nothing to update. Provide data for data_limit, expiry, proxies, inbounds, or note."
  | .insufficientFunds required available =>
      .serviceError ("Insufficient wallet balance for modification. Required: " ++ toString required
        ++ ", Available: " ++ toString available ++ ".")
  | .credentials panelName =>
      .serviceError ("Could not retrieve credentials for panel " ++ panelName ++ ".")
  | .authFailed panelName =>
      .serviceError ("Failed to authenticate with Marzban panel " ++ panelName ++ ".")
  | .remoteApi clientMessage =>
      .serviceError ("Marzban API error during update: " ++ clientMessage)
  | .unexpectedResponse =>
      .serviceError "Failed to update user on Marzban panel or received unexpected response."
  | .dbError dbMessage username panelName =>
      .serviceError ("Database error after Marzban user modification: " ++ dbMessage
        ++ ". Manual reconciliation may be needed for user " ++ username
        ++ " on panel " ++ panelName ++ ".")

/-- Accumulated billing state of one modify run (cost, payload, linkage and
the flags that drive the transaction-type choice via the description
substrings "Set data to" and "Added"). -/
structure ModifyBilling where
  cost : ℚ := 0
  payload : UpdatePayload := {}
  pricing_plan_id_for_tx : Option Nat := none
  reseller_pricing_id_for_tx : Option Nat := none
  data_charged : Bool := false
  renewal_charged : Bool := false
deriving Repr, DecidableEq

/-- Lines 194-213 of modify_marzban_user_for_reseller: the data_limit_gb
branch of the cost/payload assembly. -/
def modifyBillingData (active_pricing : Option ResellerPricing)
    (req : ModifyRequest) : Except ModifyErr ModifyBilling :=
  match req.data_limit_gb with
  | none => .ok {}
  | some gb =>
      if gb ≤ 0 then .error .gbNotPositive
      else
        match active_pricing with
        | none => .error .noGbPricing
        | some ap =>
          match ap.custom_price_per_gb with
          | none => .error .noGbPricing
          | some rate =>
              .ok { cost := quantize2 (gb * rate),
                    payload := { data_limit := some (gb_to_bytes gb) },
                    reseller_pricing_id_for_tx := some ap.id,
                    data_charged := true }

/-- Lines 215-250 of modify_marzban_user_for_reseller: the
expire_days_to_add branch of the cost/payload assembly, on top of the state
left by the data branch. -/
def modifyBillingExpiry (active_pricing : Option ResellerPricing)
    (user : LocalMarzbanUser) (now : Int) (req : ModifyRequest)
    (b1 : ModifyBilling) : Except ModifyErr ModifyBilling :=
  match req.expire_days_to_add with
  | none => .ok b1
  | some d =>
      if d ≤ 0 then .error .daysNotPositive
      else
        match active_pricing with
        | none => .error .noRenewalPlan
        | some ap =>
          match ap.pricing_plan_id, ap.pricing_plan with
          | some pid, some plan =>
              if plan.duration_days == d then
                .ok { b1 with
                      cost := b1.cost + plan.price,
                      pricing_plan_id_for_tx := some pid,
                      reseller_pricing_id_for_tx := some ap.id,
                      renewal_charged := true,
                      payload := { b1.payload with
                                   expire := some (newExpireTs now user.stored_expire d) } }
              else .error (.durationMismatch d plan.duration_days)
          | _, _ => .error .noRenewalPlan

/-- Lines 194-258 of modify_marzban_user_for_reseller: the cost and payload
assembly (data-limit branch, then expiry branch, then the costless
proxies/inbounds passthrough). -/
def modifyBilling (active_pricing : Option ResellerPricing)
    (user : LocalMarzbanUser) (now : Int) (req : ModifyRequest) :
    Except ModifyErr ModifyBilling :=
  match modifyBillingData active_pricing req with
  | .error e => .error e
  | .ok b1 =>
    match modifyBillingExpiry active_pricing user now req b1 with
    | .error e => .error e
    | .ok b2 =>
        .ok { b2 with payload := { b2.payload with
                                   proxies := req.proxies_present,
                                   inbounds := req.inbounds_present } }

/-- Lines 301-307: choice of the transaction type from the description
parts accumulated by the billing branches. -/
def modifyTxType (dataCharged renewalCharged : Bool) : String :=
  if dataCharged && renewalCharged then "user_data_renew_cost"
  else if dataCharged then "user_data_topup_cost"
  else if renewalCharged then "user_renewal_cost"
  else "user_config_change_cost"

/-- Environment of one modify_marzban_user_for_reseller run, in program
order.  `user_lookup` is get_marzban_user_for_reseller (none when the row is
absent or owned by a different reseller); `remote_update` is the outcome of
marzban_api_client.update_marzban_user, with `.ok none` a falsy response. -/
structure ModifyEnv where
  user_lookup : Option LocalMarzbanUser
  panel_of_user : Option MarzbanPanel
  now : Int
  decrypted_password : Option String
  token : Option String
  remote_update : Except MarzbanAPIErr (Option String)
  db_commit_ok : Bool
  db_error_message : String
deriving Repr

/-- Success payload of modify_marzban_user_for_reseller. -/
structure ModifySuccess where
  new_wallet_balance : ℚ
  notes : Option String
deriving Repr, DecidableEq

structure ModifyOutcome where
  result : Except ModifyErr ModifySuccess
  effects : Effects
deriving Repr

/-- Lines 295-346 of modify_marzban_user_for_reseller: the local commit
(wallet debit and ledger row when a cost was incurred, mirror refresh,
note), shared by the remote and the note-only path; on failure everything
is rolled back and the dbError site raises. -/
def modifyCommitted (env : ModifyEnv) (reseller : Reseller) (req : ModifyRequest)
    (local_db_user : LocalMarzbanUser) (target_panel : MarzbanPanel)
    (b : ModifyBilling) (remoteCalled : Bool) : ModifyOutcome :=
  let sent : Option (Option Int × Option Int) :=
    if remoteCalled then some (b.payload.data_limit, b.payload.expire) else none
  if env.db_commit_ok then
    ⟨.ok { new_wallet_balance :=
             if 0 < b.cost then reseller.wallet_balance - b.cost
             else reseller.wallet_balance,
           notes :=
             match req.note with
             | some n => some n
             | none => local_db_user.notes },
     { Effects.none with
         remote_update_called := remoteCalled,
         sent_payload := sent,
         ledger_entries :=
           if 0 < b.cost then
             [{ reseller_id := reseller.id,
                transaction_type := modifyTxType b.data_charged b.renewal_charged,
                amount := -b.cost,
                pricing_plan_id := b.pricing_plan_id_for_tx,
                reseller_pricing_id := b.reseller_pricing_id_for_tx }]
           else [],
         wallet_delta := if 0 < b.cost then -b.cost else 0 }⟩
  else
    ⟨.error (.dbError env.db_error_message local_db_user.marzban_username target_panel.name),
     { Effects.none with
         remote_update_called := remoteCalled,
         sent_payload := sent }⟩

/-- Lines 271-292 of modify_marzban_user_for_reseller: the remote PATCH is
issued only when the payload is non-empty, followed by the local commit. -/
def modifyRemoteAndCommit (env : ModifyEnv) (reseller : Reseller) (req : ModifyRequest)
    (local_db_user : LocalMarzbanUser) (target_panel : MarzbanPanel)
    (b : ModifyBilling) : ModifyOutcome :=
  if b.payload.isEmpty then
    modifyCommitted env reseller req local_db_user target_panel b false
  else
    match env.decrypted_password with
    | none => ⟨.error (.credentials target_panel.name), .none⟩
    | some _ =>
      match truthyStr env.token with
      | none => ⟨.error (.authFailed target_panel.name), .none⟩
      | some _ =>
        match env.remote_update with
        | .error e =>
            ⟨.error (.remoteApi e.message),
             { Effects.none with
                 remote_update_called := true,
                 sent_payload := some (b.payload.data_limit, b.payload.expire) }⟩
        | .ok none =>
            ⟨.error .unexpectedResponse,
             { Effects.none with
                 remote_update_called := true,
                 sent_payload := some (b.payload.data_limit, b.payload.expire) }⟩
        | .ok (some _) =>
            modifyCommitted env reseller req local_db_user target_panel b true

/-- marzban_user_service.modify_marzban_user_for_reseller (lines 169-346). -/
def modify_marzban_user_for_reseller (pricing_db : List ResellerPricing)
    (env : ModifyEnv) (reseller : Reseller) (req : ModifyRequest) : ModifyOutcome :=
  match env.user_lookup with
  | none => ⟨.error .userNotFound, .none⟩
  | some local_db_user =>
    match env.panel_of_user with
    | none => ⟨.error .panelMissing, .none⟩
    | some target_panel =>
      -- active_pricing = get_active_pricing_for_reseller(db, reseller.id, target_panel.id)
      match modifyBilling
          (get_active_pricing_for_reseller pricing_db reseller.id (some target_panel.id))
          local_db_user env.now req with
      | .error e => ⟨.error e, .none⟩
      | .ok b =>
        -- lines 261-262: nothing to update
        if b.payload.isEmpty ∧ req.note = none then
          ⟨.error .nothingToUpdate, .none⟩
        -- lines 264-269: wallet check, only when a cost was incurred
        else if 0 < b.cost ∧ reseller.wallet_balance < b.cost ∧ ¬ reseller.allow_negative_balance then
          ⟨.error (.insufficientFunds b.cost reseller.wallet_balance), .none⟩
        else
          modifyRemoteAndCommit env reseller req local_db_user target_panel b

/-- One record of the remote user listing, as the sync loop inspects it:
user_data.get("username") plus the rest of the record (opaque). -/
structure RemoteUserRecord where
  username : Option String
  payload : String
deriving Repr, DecidableEq

/-- A row of the local marzban_users table, as the sync touches it.
The unique constraint of the model makes (marzban_username,
marzban_panel_id) a key. -/
structure MirrorRow where
  marzban_username : String
  marzban_panel_id : Nat
  reseller_id : Nat
  created_by_new_panel : Bool
  api_response_data : String
deriving Repr, DecidableEq

/-- get_marzban_user_by_username_and_panel: the first row matching the
(username, panel) key (the first element of the filtered query). -/
def get_marzban_user_by_username_and_panel (db : List MirrorRow)
    (username : String) (panel_id : Nat) : Option MirrorRow :=
  db.find? (fun u =>
    u.marzban_username == username && u.marzban_panel_id == panel_id)

/-- State threaded through the per-record sync loop: the mirror table plus
the summary counters.  Each iteration commits individually in the source,
so the state after any record is durable. -/
structure SyncState where
  db : List MirrorRow
  newly_added_count : Nat
  updated_count : Nat
  errors : List String
deriving Repr, DecidableEq

/-- The body of the for-loop of sync_marzban_users_for_reseller_panel
(lines 87-112) on one remote record.  A record with a falsy username adds
one error message and is skipped; an existing mirror row is refreshed in
place (by key, unique by the table constraint); otherwise a new row is
appended with created_by_new_panel = false. -/
def syncStep (reseller : Reseller) (panel : MarzbanPanel)
    (st : SyncState) (r : RemoteUserRecord) : SyncState :=
  match truthyStr r.username with
  | none =>
      { st with errors :=
          st.errors ++ ["User data from API missing username: " ++ r.payload] }
  | some marzban_username =>
      match get_marzban_user_by_username_and_panel st.db marzban_username panel.id with
      | some _ =>
          { st with
              db := st.db.map (fun u =>
                if u.marzban_username == marzban_username && u.marzban_panel_id == panel.id
                then { u with api_response_data := r.payload } else u),
              updated_count := st.updated_count + 1 }
      | none =>
          { st with
              db := st.db ++
                [{ marzban_username := marzban_username,
                   marzban_panel_id := panel.id,
                   reseller_id := reseller.id,
                   created_by_new_panel := false,
                   api_response_data := r.payload }],
              newly_added_count := st.newly_added_count + 1 }

/-- The whole per-record loop. -/
def syncLoop (reseller : Reseller) (panel : MarzbanPanel)
    (st : SyncState) (records : List RemoteUserRecord) : SyncState :=
  records.foldl (syncStep reseller panel) st

/-- The summary dict returned by sync_marzban_users_for_reseller_panel. -/
structure SyncSummary where
  total_users_from_api : Nat
  newly_added_count : Nat
  updated_count : Nat
  errors : List String
deriving Repr, DecidableEq

/-- Environment of one sync run: decrypted credentials, token, and the
outcome of the remote listing (already filtered by creator_admin_id). -/
structure SyncEnv where
  decrypted_password : Option String
  token : Option String
  api_users : Except MarzbanAPIErr (List RemoteUserRecord)
deriving Repr

/-- marzban_user_service.sync_marzban_users_for_reseller_panel
(lines 55-130).  Missing credentials or a failed authentication raise
MarzbanUserServiceError (fatal, `.error`); a remote listing failure is
non-fatal and yields a summary carrying the API error message; otherwise
the loop runs over every listed record. -/
def sync_marzban_users_for_reseller_panel (env : SyncEnv) (db : List MirrorRow)
    (reseller : Reseller) (panel : MarzbanPanel) :
    Except PyExc (List MirrorRow × SyncSummary) :=
  match env.decrypted_password with
  | none =>
      .error (.serviceError ("Missing credentials for panel ID " ++ toString panel.id ++ "."))
  | some _ =>
    match truthyStr env.token with
    | none =>
        .error (.serviceError ("Authentication failed for panel ID " ++ toString panel.id ++ "."))
    | some _ =>
      match env.api_users with
      | .error e =>
          .ok (db, { total_users_from_api := 0,
                     newly_added_count := 0,
                     updated_count := 0,
                     errors := ["Marzban API Error: " ++ e.message] })
      | .ok records =>
          let finalSt := syncLoop reseller panel ⟨db, 0, 0, []⟩ records
          .ok (finalSt.db,
               { total_users_from_api := records.length,
                 newly_added_count := finalSt.newly_added_count,
                 updated_count := finalSt.updated_count,
                 errors := finalSt.errors })

/-! Sample data used by witnesses and counterexamples. -/

def panel1 : MarzbanPanel := { id := 1, name := "p1" }

/-- Unit-rate pricing for reseller 1 on panel 1: 5.00 per GB. -/
def gbPricing1 : ResellerPricing :=
  { id := 11, reseller_id := 1, pricing_plan_id := none, pricing_plan := none,
    custom_price_per_gb := some 5, marzban_panel_id := some 1 }

/-- Plan of 30 days at price 20.00. -/
def plan30 : PricingPlan :=
  { id := 3, name := "plan30", duration_days := 30, price := 20 }

/-- Plan-based pricing for reseller 1 on panel 1. -/
def planPricing1 : ResellerPricing :=
  { id := 12, reseller_id := 1, pricing_plan_id := some 3, pricing_plan := some plan30,
    custom_price_per_gb := none, marzban_panel_id := some 1 }

def reseller10 : Reseller :=
  { id := 1, marzban_admin_id := 7, wallet_balance := 10,
    allow_negative_balance := false, panels := [1] }

def reseller100 : Reseller :=
  { id := 1, marzban_admin_id := 7, wallet_balance := 100,
    allow_negative_balance := false, panels := [1] }

def resellerNeg5 : Reseller :=
  { id := 1, marzban_admin_id := 7, wallet_balance := -5,
    allow_negative_balance := false, panels := [1] }

def createEnvOk : CreateEnv :=
  { panel_lookup := some panel1, now := 1000,
    decrypted_password := some "pw", token := some "tok",
    remote_create := .ok { username := some "alice" },
    db_commit_ok := true, db_error_message := "boom" }

def createReqGB3 : CreateRequest :=
  { marzban_panel_id := 1, username := "alice", data_limit_gb := some 3,
    expire_days := none, note := none }

def createReq7d : CreateRequest :=
  { marzban_panel_id := 1, username := "alice", data_limit_gb := none,
    expire_days := some 7, note := none }

def bobUser : LocalMarzbanUser :=
  { id := 5, marzban_username := "bob", stored_expire := none, notes := none }

def modifyEnvOk : ModifyEnv :=
  { user_lookup := some bobUser, panel_of_user := some panel1, now := 1000,
    decrypted_password := some "pw", token := some "tok",
    remote_update := .ok (some "resp"), db_commit_ok := true, db_error_message := "boom" }

def modifyReqNote : ModifyRequest :=
  { data_limit_gb := none, expire_days_to_add := none, proxies_present := false,
    inbounds_present := false, note := some "hello" }

def modifyReqGB3 : ModifyRequest :=
  { data_limit_gb := some 3, expire_days_to_add := none, proxies_present := false,
    inbounds_present := false, note := none }

def modifyReq30d : ModifyRequest :=
  { data_limit_gb := none, expire_days_to_add := some 30, proxies_present := false,
    inbounds_present := false, note := none }

/-! Inversion lemmas for the success paths. -/

/-- The remote-and-commit phase of create returns the balance debited by
exactly the computed cost. -/
theorem createRemoteAndCommit_ok_balance (env : CreateEnv) (reseller : Reseller)
    (p : MarzbanPanel) (ap : ResellerPricing) (cost : ℚ) (pid : Option Nat)
    (s : CreateSuccess)
    (h : (createRemoteAndCommit env reseller p ap cost pid).result = .ok s) :
    s.new_wallet_balance = reseller.wallet_balance - cost := by
  unfold createRemoteAndCommit at h
  split at h
  · simp at h
  · split at h
    · simp at h
    · split at h
      · simp at h
      · split at h
        · simp at h
        · split at h
          · simp at h
            rw [← h]
          · simp at h

/-- A successful create run debited exactly the computed cost, which had
passed the funds check. -/
theorem create_ok_funds_checked (pricing_db : List ResellerPricing) (env : CreateEnv)
    (reseller : Reseller) (req : CreateRequest) (s : CreateSuccess)
    (h : (create_marzban_user_for_reseller pricing_db env reseller req).result = .ok s)
    (hneg : reseller.allow_negative_balance = false)
    (hbal : 0 ≤ reseller.wallet_balance) :
    0 ≤ s.new_wallet_balance := by
  unfold create_marzban_user_for_reseller at h
  split at h
  · simp at h
  · split at h
    · simp at h
    · split at h
      · simp at h
      · split at h
        · simp at h
        · split at h
          · simp at h
          · next hwallet =>
            rw [createRemoteAndCommit_ok_balance _ _ _ _ _ _ _ h]
            rw [hneg] at hwallet
            simp at hwallet
            linarith

/-- The commit phase of modify returns the balance debited by the cost
exactly when a cost was incurred. -/
theorem modifyCommitted_ok_balance (env : ModifyEnv) (reseller : Reseller)
    (req : ModifyRequest) (u : LocalMarzbanUser) (p : MarzbanPanel)
    (b : ModifyBilling) (rc : Bool) (s : ModifySuccess)
    (h : (modifyCommitted env reseller req u p b rc).result = .ok s) :
    s.new_wallet_balance =
      (if 0 < b.cost then reseller.wallet_balance - b.cost else reseller.wallet_balance) := by
  unfold modifyCommitted at h
  by_cases hdb : env.db_commit_ok
  · simp [hdb] at h
    rw [← h]
  · simp [hdb] at h

/-- Same fact through the remote phase. -/
theorem modifyRemoteAndCommit_ok_balance (env : ModifyEnv) (reseller : Reseller)
    (req : ModifyRequest) (u : LocalMarzbanUser) (p : MarzbanPanel)
    (b : ModifyBilling) (s : ModifySuccess)
    (h : (modifyRemoteAndCommit env reseller req u p b).result = .ok s) :
    s.new_wallet_balance =
      (if 0 < b.cost then reseller.wallet_balance - b.cost else reseller.wallet_balance) := by
  unfold modifyRemoteAndCommit at h
  split at h
  · exact modifyCommitted_ok_balance env reseller req u p b false s h
  · split at h
    · simp at h
    · split at h
      · simp at h
      · split at h
        · simp at h
        · simp at h
        · exact modifyCommitted_ok_balance env reseller req u p b true s h

/-- A successful modify run never leaves a non-negative wallet negative
when negative balances are disallowed. -/
theorem modify_ok_funds_checked (pricing_db : List ResellerPricing) (env : ModifyEnv)
    (reseller : Reseller) (req : ModifyRequest) (s : ModifySuccess)
    (h : (modify_marzban_user_for_reseller pricing_db env reseller req).result = .ok s)
    (hneg : reseller.allow_negative_balance = false)
    (hbal : 0 ≤ reseller.wallet_balance) :
    0 ≤ s.new_wallet_balance := by
  unfold modify_marzban_user_for_reseller at h
  split at h
  · simp at h
  · split at h
    · simp at h
    · split at h
      · simp at h
      · split at h
        · simp at h
        · split at h
          · simp at h
          · next hwallet =>
            rw [modifyRemoteAndCommit_ok_balance _ _ _ _ _ _ _ h]
            rw [hneg] at hwallet
            simp at hwallet
            split
            · next hc => linarith [hwallet hc]
            · linarith

/-- A billing state whose data branch did not run is the initial state. -/
theorem modifyBillingData_no_data (ap : Option ResellerPricing) (req : ModifyRequest)
    (b1 : ModifyBilling) (h : modifyBillingData ap req = .ok b1)
    (hd : b1.payload.data_limit = none) :
    b1 = {} := by
  unfold modifyBillingData at h
  split at h
  · simp at h
    rw [← h]
  · split at h
    · simp at h
    · split at h
      · simp at h
      · split at h
        · simp at h
        · simp at h
          rw [← h] at hd
          simp at hd

/-- A billing state whose expiry branch did not run is the data-branch
state unchanged. -/
theorem modifyBillingExpiry_no_expire (ap : Option ResellerPricing)
    (u : LocalMarzbanUser) (now : Int) (req : ModifyRequest)
    (b1 b2 : ModifyBilling) (h : modifyBillingExpiry ap u now req b1 = .ok b2)
    (he : b2.payload.expire = none) :
    b2 = b1 := by
  unfold modifyBillingExpiry at h
  split at h
  · simp at h
    rw [← h]
  · split at h
    · simp at h
    · split at h
      · simp at h
      · split at h
        · split at h
          · simp at h
            rw [← h] at he
            simp at he
          · simp at h
        · simp at h

/-- An empty PATCH payload means no billable branch ran, hence zero cost. -/
theorem modifyBilling_empty_payload_zero_cost (ap : Option ResellerPricing)
    (u : LocalMarzbanUser) (now : Int) (req : ModifyRequest)
    (b : ModifyBilling) (h : modifyBilling ap u now req = .ok b)
    (he : b.payload.isEmpty = true) :
    b.cost = 0 := by
  unfold modifyBilling at h
  split at h
  · simp at h
  · next b1 hb1 =>
    split at h
    · simp at h
    · next b2 hb2 =>
      simp at h
      rw [← h] at he
      unfold UpdatePayload.isEmpty at he
      simp at he
      obtain ⟨⟨⟨hdl, hex⟩, hpx⟩, hib⟩ := he
      have h2 : b2 = b1 := modifyBillingExpiry_no_expire ap u now req b1 b2 hb2 hex
      subst h2
      have h1 : b2 = {} := modifyBillingData_no_data ap req b2 hb1 hdl
      rw [← h]
      simp [h1]

/-- With the guards discharged, create reduces to the funds check followed
by the remote-and-commit phase. -/
theorem create_reduces_to_wallet_check (pricing_db : List ResellerPricing)
    (env : CreateEnv) (reseller : Reseller) (req : CreateRequest)
    (panel : MarzbanPanel) (ap : ResellerPricing) (cost : ℚ) (pid : Option Nat)
    (hacc : reseller.panels.contains req.marzban_panel_id = true)
    (hpanel : env.panel_lookup = some panel)
    (hap : get_active_pricing_for_reseller pricing_db reseller.id (some panel.id) = some ap)
    (hcost : createCost ap req.data_limit_gb = .ok (cost, pid)) :
    create_marzban_user_for_reseller pricing_db env reseller req =
      if reseller.wallet_balance < cost ∧ ¬ reseller.allow_negative_balance then
        ⟨.error (.insufficientFunds cost reseller.wallet_balance), Effects.none⟩
      else createRemoteAndCommit env reseller panel ap cost pid := by
  unfold create_marzban_user_for_reseller
  rw [if_neg (by simpa using hacc), hpanel]
  dsimp only
  rw [hap]
  dsimp only
  rw [hcost]

/-- With user, panel and billing discharged, modify reduces to the two
checks followed by the remote-and-commit phase. -/
theorem modify_reduces_to_checks (pricing_db : List ResellerPricing)
    (env : ModifyEnv) (reseller : Reseller) (req : ModifyRequest)
    (u : LocalMarzbanUser) (panel : MarzbanPanel) (b : ModifyBilling)
    (huser : env.user_lookup = some u)
    (hpanel : env.panel_of_user = some panel)
    (hb : modifyBilling (get_active_pricing_for_reseller pricing_db reseller.id (some panel.id))
            u env.now req = .ok b) :
    modify_marzban_user_for_reseller pricing_db env reseller req =
      if b.payload.isEmpty ∧ req.note = none then
        ⟨.error .nothingToUpdate, Effects.none⟩
      else if 0 < b.cost ∧ reseller.wallet_balance < b.cost ∧ ¬ reseller.allow_negative_balance then
        ⟨.error (.insufficientFunds b.cost reseller.wallet_balance), Effects.none⟩
      else modifyRemoteAndCommit env reseller req u panel b := by
  unfold modify_marzban_user_for_reseller
  rw [huser]
  dsimp only
  rw [hpanel]
  dsimp only
  rw [hb]

/-- No branch after the funds check of create raises InsufficientFunds. -/
theorem createRemoteAndCommit_no_insufficient (env : CreateEnv) (reseller : Reseller)
    (p : MarzbanPanel) (ap : ResellerPricing) (cost : ℚ) (pid : Option Nat)
    (r a : ℚ) :
    (createRemoteAndCommit env reseller p ap cost pid).result
      ≠ .error (.insufficientFunds r a) := by
  unfold createRemoteAndCommit
  split
  · simp
  · split
    · simp
    · split
      · simp
      · split
        · simp
        · split
          · simp
          · simp

/-- The commit phase of modify never raises InsufficientFunds. -/
theorem modifyCommitted_no_insufficient (env : ModifyEnv) (reseller : Reseller)
    (req : ModifyRequest) (u : LocalMarzbanUser) (p : MarzbanPanel)
    (b : ModifyBilling) (rc : Bool) (r a : ℚ) :
    (modifyCommitted env reseller req u p b rc).result
      ≠ .error (.insufficientFunds r a) := by
  unfold modifyCommitted
  by_cases hdb : env.db_commit_ok <;> simp [hdb]

/-- No branch after the funds check of modify raises InsufficientFunds. -/
theorem modifyRemoteAndCommit_no_insufficient (env : ModifyEnv) (reseller : Reseller)
    (req : ModifyRequest) (u : LocalMarzbanUser) (p : MarzbanPanel)
    (b : ModifyBilling) (r a : ℚ) :
    (modifyRemoteAndCommit env reseller req u p b).result
      ≠ .error (.insufficientFunds r a) := by
  unfold modifyRemoteAndCommit
  split
  · exact modifyCommitted_no_insufficient env reseller req u p b false r a
  · split
    · simp
    · split
      · simp
      · split
        · simp
        · simp
        · exact modifyCommitted_no_insufficient env reseller req u p b true r a

/-- C1: for every reseller whose allow_negative_balance flag is false,
every operation that changes wallet_balance (createUser provisioning,
modifyUser billable modification) preserves wallet_balance >= 0: a debit of
cost C is applied only after a funds check that rejects the operation
unless wallet_balance - C >= 0. -/
theorem C1_balance_preserved_nonneg (pricing_db : List ResellerPricing)
    (cenv : CreateEnv) (menv : ModifyEnv) (reseller : Reseller)
    (creq : CreateRequest) (mreq : ModifyRequest)
    (hneg : reseller.allow_negative_balance = false)
    (hbal : 0 ≤ reseller.wallet_balance) :
    (∀ s, (create_marzban_user_for_reseller pricing_db cenv reseller creq).result = .ok s →
        0 ≤ s.new_wallet_balance) ∧
    (∀ s, (modify_marzban_user_for_reseller pricing_db menv reseller mreq).result = .ok s →
        0 ≤ s.new_wallet_balance) :=
  ⟨fun s h => create_ok_funds_checked pricing_db cenv reseller creq s h hneg hbal,
   fun s h => modify_ok_funds_checked pricing_db menv reseller mreq s h hneg hbal⟩

/-- C1 witness: a reseller with balance 100.00, negative balance
disallowed; unit-rate 5.00/GB; both a 3 GB creation and a 3 GB modification
keep the balance non-negative. -/
theorem C1_balance_preserved_nonneg_witness :
    reseller100.allow_negative_balance = false ∧
    (0 : ℚ) ≤ reseller100.wallet_balance ∧
    ((∀ s, (create_marzban_user_for_reseller [gbPricing1] createEnvOk reseller100 createReqGB3).result = .ok s →
        0 ≤ s.new_wallet_balance) ∧
     (∀ s, (modify_marzban_user_for_reseller [gbPricing1] modifyEnvOk reseller100 modifyReqGB3).result = .ok s →
        0 ≤ s.new_wallet_balance)) :=
  ⟨rfl, by norm_num [reseller100],
   C1_balance_preserved_nonneg [gbPricing1] createEnvOk modifyEnvOk reseller100
     createReqGB3 modifyReqGB3 rfl (by norm_num [reseller100])⟩

/-- Requirements of one create run reaching the funds check: panel access
granted, the panel row found, pricing resolved, cost computed. -/
theorem create_insufficientFunds_iff (pricing_db : List ResellerPricing)
    (env : CreateEnv) (reseller : Reseller) (req : CreateRequest)
    (panel : MarzbanPanel) (ap : ResellerPricing) (cost : ℚ) (pid : Option Nat)
    (hacc : reseller.panels.contains req.marzban_panel_id = true)
    (hpanel : env.panel_lookup = some panel)
    (hap : get_active_pricing_for_reseller pricing_db reseller.id (some panel.id) = some ap)
    (hcost : createCost ap req.data_limit_gb = .ok (cost, pid)) :
    (∀ r a, (create_marzban_user_for_reseller pricing_db env reseller req).result
        = .error (.insufficientFunds r a)
      ↔ (r = cost ∧ a = reseller.wallet_balance ∧
         reseller.wallet_balance < cost ∧ reseller.allow_negative_balance = false)) ∧
    (reseller.wallet_balance < cost ∧ reseller.allow_negative_balance = false →
      create_marzban_user_for_reseller pricing_db env reseller req =
        ⟨.error (.insufficientFunds cost reseller.wallet_balance), Effects.none⟩) := by
  rw [create_reduces_to_wallet_check pricing_db env reseller req panel ap cost pid
        hacc hpanel hap hcost]
  by_cases hw : reseller.wallet_balance < cost ∧ ¬ reseller.allow_negative_balance
  · rw [if_pos hw]
    obtain ⟨hw1, hw2⟩ := hw
    rw [Bool.not_eq_true] at hw2
    constructor
    · intro r a
      simp
      constructor
      · rintro ⟨h1, h2⟩
        exact ⟨h1.symm, h2.symm, hw1, hw2⟩
      · rintro ⟨h1, h2, _, _⟩
        exact ⟨h1.symm, h2.symm⟩
    · intro _
      rfl
  · rw [if_neg hw]
    constructor
    · intro r a
      constructor
      · intro hres
        exact absurd hres (createRemoteAndCommit_no_insufficient env reseller panel ap cost pid r a)
      · rintro ⟨h1, h2, h3, h4⟩
        exact absurd ⟨h3, by simp [h4]⟩ hw
    · rintro ⟨h3, h4⟩
      exact absurd ⟨h3, by simp [h4]⟩ hw

/-- Modify raises InsufficientFunds iff the computed cost is positive,
exceeds the balance, and negative balances are disallowed. -/
theorem modify_insufficientFunds_iff (pricing_db : List ResellerPricing)
    (env : ModifyEnv) (reseller : Reseller) (req : ModifyRequest)
    (u : LocalMarzbanUser) (panel : MarzbanPanel) (b : ModifyBilling)
    (huser : env.user_lookup = some u)
    (hpanel : env.panel_of_user = some panel)
    (hb : modifyBilling (get_active_pricing_for_reseller pricing_db reseller.id (some panel.id))
            u env.now req = .ok b) :
    (∀ r a, (modify_marzban_user_for_reseller pricing_db env reseller req).result
        = .error (.insufficientFunds r a)
      ↔ (r = b.cost ∧ a = reseller.wallet_balance ∧ 0 < b.cost ∧
         reseller.wallet_balance < b.cost ∧ reseller.allow_negative_balance = false)) ∧
    (0 < b.cost ∧ reseller.wallet_balance < b.cost ∧ reseller.allow_negative_balance = false →
      modify_marzban_user_for_reseller pricing_db env reseller req =
        ⟨.error (.insufficientFunds b.cost reseller.wallet_balance), Effects.none⟩) := by
  rw [modify_reduces_to_checks pricing_db env reseller req u panel b huser hpanel hb]
  by_cases hnt : b.payload.isEmpty = true ∧ req.note = none
  · rw [if_pos hnt]
    have hzero : b.cost = 0 :=
      modifyBilling_empty_payload_zero_cost _ _ _ _ _ hb hnt.1
    constructor
    · intro r a
      simp [hzero]
    · rintro ⟨h1, _, _⟩
      rw [hzero] at h1
      exact absurd h1 (lt_irrefl 0)
  · rw [if_neg hnt]
    by_cases hw : 0 < b.cost ∧ reseller.wallet_balance < b.cost ∧ ¬ reseller.allow_negative_balance
    · rw [if_pos hw]
      obtain ⟨hw0, hw1, hw2⟩ := hw
      rw [Bool.not_eq_true] at hw2
      constructor
      · intro r a
        simp
        constructor
        · rintro ⟨h1, h2⟩
          exact ⟨h1.symm, h2.symm, hw0, hw1, hw2⟩
        · rintro ⟨h1, h2, _, _, _⟩
          exact ⟨h1.symm, h2.symm⟩
      · intro _
        rfl
    · rw [if_neg hw]
      constructor
      · intro r a
        constructor
        · intro hres
          exact absurd hres (modifyRemoteAndCommit_no_insufficient env reseller req u panel b r a)
        · rintro ⟨h1, h2, h3, h4, h5⟩
          exact absurd ⟨h3, h4, by simp [h5]⟩ hw
      · rintro ⟨h3, h4, h5⟩
        exact absurd ⟨h3, h4, by simp [h5]⟩ hw


/-- C2 (amended): createUser raises InsufficientFunds exactly when the
computed cost exceeds wallet_balance and allow_negative_balance is false;
modifyUser raises it exactly when, in addition, the computed cost is
positive (a cost of zero skips the funds check there); the error carries
the required cost and the available balance, and when it is raised no
remote call has been issued, no ledger entry created, and the balance is
unchanged. -/
theorem C2_insufficient_funds_exact (pricing_db : List ResellerPricing)
    (cenv : CreateEnv) (menv : ModifyEnv) (reseller : Reseller)
    (creq : CreateRequest) (mreq : ModifyRequest)
    (panel : MarzbanPanel) (ap : ResellerPricing) (cost : ℚ) (pid : Option Nat)
    (u : LocalMarzbanUser) (mpanel : MarzbanPanel) (b : ModifyBilling)
    (hacc : reseller.panels.contains creq.marzban_panel_id = true)
    (hpanel : cenv.panel_lookup = some panel)
    (hap : get_active_pricing_for_reseller pricing_db reseller.id (some panel.id) = some ap)
    (hcost : createCost ap creq.data_limit_gb = .ok (cost, pid))
    (huser : menv.user_lookup = some u)
    (hmpanel : menv.panel_of_user = some mpanel)
    (hb : modifyBilling (get_active_pricing_for_reseller pricing_db reseller.id (some mpanel.id))
            u menv.now mreq = .ok b) :
    ((∀ r a, (create_marzban_user_for_reseller pricing_db cenv reseller creq).result
        = .error (.insufficientFunds r a)
      ↔ (r = cost ∧ a = reseller.wallet_balance ∧
         reseller.wallet_balance < cost ∧ reseller.allow_negative_balance = false)) ∧
     (reseller.wallet_balance < cost ∧ reseller.allow_negative_balance = false →
      create_marzban_user_for_reseller pricing_db cenv reseller creq =
        ⟨.error (.insufficientFunds cost reseller.wallet_balance), Effects.none⟩)) ∧
    ((∀ r a, (modify_marzban_user_for_reseller pricing_db menv reseller mreq).result
        = .error (.insufficientFunds r a)
      ↔ (r = b.cost ∧ a = reseller.wallet_balance ∧ 0 < b.cost ∧
         reseller.wallet_balance < b.cost ∧ reseller.allow_negative_balance = false)) ∧
     (0 < b.cost ∧ reseller.wallet_balance < b.cost ∧ reseller.allow_negative_balance = false →
      modify_marzban_user_for_reseller pricing_db menv reseller mreq =
        ⟨.error (.insufficientFunds b.cost reseller.wallet_balance), Effects.none⟩)) :=
  ⟨create_insufficientFunds_iff pricing_db cenv reseller creq panel ap cost pid
     hacc hpanel hap hcost,
   modify_insufficientFunds_iff pricing_db menv reseller mreq u mpanel b
     huser hmpanel hb⟩

/-- The billing state of a 3 GB data modification at rate 5.00/GB. -/
def billing15 : ModifyBilling :=
  { cost := 15,
    payload := { data_limit := some 3221225472, expire := none,
                 proxies := false, inbounds := false },
    pricing_plan_id_for_tx := none,
    reseller_pricing_id_for_tx := some 11,
    data_charged := true, renewal_charged := false }

/-- C2 witness: the spec scenario (balance 10.00, rate 5.00/GB, request of
3 GB, cost 15.00) run through both orchestrators. -/
theorem C2_insufficient_funds_exact_witness :
    reseller10.panels.contains createReqGB3.marzban_panel_id = true ∧
    createEnvOk.panel_lookup = some panel1 ∧
    get_active_pricing_for_reseller [gbPricing1] reseller10.id (some panel1.id) = some gbPricing1 ∧
    createCost gbPricing1 createReqGB3.data_limit_gb = .ok (15, none) ∧
    modifyEnvOk.user_lookup = some bobUser ∧
    modifyEnvOk.panel_of_user = some panel1 ∧
    modifyBilling (get_active_pricing_for_reseller [gbPricing1] reseller10.id (some panel1.id))
      bobUser modifyEnvOk.now modifyReqGB3 = .ok billing15 ∧
    (((∀ r a, (create_marzban_user_for_reseller [gbPricing1] createEnvOk reseller10 createReqGB3).result
        = .error (.insufficientFunds r a)
      ↔ (r = 15 ∧ a = reseller10.wallet_balance ∧
         reseller10.wallet_balance < 15 ∧ reseller10.allow_negative_balance = false)) ∧
      (reseller10.wallet_balance < 15 ∧ reseller10.allow_negative_balance = false →
       create_marzban_user_for_reseller [gbPricing1] createEnvOk reseller10 createReqGB3 =
         ⟨.error (.insufficientFunds 15 reseller10.wallet_balance), Effects.none⟩)) ∧
     ((∀ r a, (modify_marzban_user_for_reseller [gbPricing1] modifyEnvOk reseller10 modifyReqGB3).result
        = .error (.insufficientFunds r a)
      ↔ (r = billing15.cost ∧ a = reseller10.wallet_balance ∧ 0 < billing15.cost ∧
         reseller10.wallet_balance < billing15.cost ∧ reseller10.allow_negative_balance = false)) ∧
      (0 < billing15.cost ∧ reseller10.wallet_balance < billing15.cost ∧
         reseller10.allow_negative_balance = false →
       modify_marzban_user_for_reseller [gbPricing1] modifyEnvOk reseller10 modifyReqGB3 =
         ⟨.error (.insufficientFunds billing15.cost reseller10.wallet_balance), Effects.none⟩))) :=
  ⟨rfl, rfl, rfl,
   by norm_num [createCost, gbPricing1, createReqGB3, quantize2],
   rfl, rfl,
   by norm_num [modifyBilling, modifyBillingData, modifyBillingExpiry,
     get_active_pricing_for_reseller, gbPricing1, modifyReqGB3, modifyEnvOk,
     reseller10, panel1, bobUser, quantize2, gb_to_bytes, pyInt, billing15],
   C2_insufficient_funds_exact [gbPricing1] createEnvOk modifyEnvOk reseller10
     createReqGB3 modifyReqGB3 panel1 gbPricing1 15 none bobUser panel1 billing15
     rfl rfl rfl
     (by norm_num [createCost, gbPricing1, createReqGB3, quantize2])
     rfl rfl
     (by norm_num [modifyBilling, modifyBillingData, modifyBillingExpiry,
       get_active_pricing_for_reseller, gbPricing1, modifyReqGB3, modifyEnvOk,
       reseller10, panel1, bobUser, quantize2, gb_to_bytes, pyInt, billing15])⟩

/-- C2 counterexample: a note-only modification for a reseller whose
balance is already negative (-5.00) with allow_negative_balance = false:
the computed cost 0 exceeds the balance, yet the run succeeds instead of
raising InsufficientFunds, because modify checks funds only when the cost
is positive. -/
theorem C2_insufficient_funds_counterexample :
    (modify_marzban_user_for_reseller [] modifyEnvOk resellerNeg5 modifyReqNote).result =
      .ok { new_wallet_balance := -5, notes := some "hello" } ∧
    (modifyBilling (get_active_pricing_for_reseller [] resellerNeg5.id (some panel1.id))
        bobUser modifyEnvOk.now modifyReqNote) = .ok {} ∧
    resellerNeg5.wallet_balance < (0 : ℚ) ∧
    resellerNeg5.allow_negative_balance = false := by
  refine ⟨?_, ?_, ?_, rfl⟩
  · norm_num [modify_marzban_user_for_reseller, modifyEnvOk, resellerNeg5, modifyReqNote,
      modifyBilling, modifyBillingData, modifyBillingExpiry, get_active_pricing_for_reseller,
      bobUser, panel1, UpdatePayload.isEmpty, modifyRemoteAndCommit, modifyCommitted,
      Effects.none, truthyStr]
    rw [if_neg (by simp)]
  · norm_num [modifyBilling, modifyBillingData, modifyBillingExpiry,
      get_active_pricing_for_reseller, modifyReqNote, modifyEnvOk, bobUser, panel1, resellerNeg5]
  · norm_num [resellerNeg5]


/-- Billing short-circuits: a billing error is the whole modify outcome,
with no effects. -/
theorem modify_reduces_billing_error (pricing_db : List ResellerPricing)
    (env : ModifyEnv) (reseller : Reseller) (req : ModifyRequest)
    (u : LocalMarzbanUser) (panel : MarzbanPanel) (e : ModifyErr)
    (huser : env.user_lookup = some u)
    (hpanel : env.panel_of_user = some panel)
    (hb : modifyBilling (get_active_pricing_for_reseller pricing_db reseller.id (some panel.id))
            u env.now req = .error e) :
    modify_marzban_user_for_reseller pricing_db env reseller req =
      ⟨.error e, Effects.none⟩ := by
  unfold modify_marzban_user_for_reseller
  rw [huser]
  dsimp only
  rw [hpanel]
  dsimp only
  rw [hb]

/-- An extension request whose day count differs from the plan duration is
rejected by the billing assembly with the mismatch error. -/
theorem modifyBilling_duration_mismatch (ap : ResellerPricing)
    (u : LocalMarzbanUser) (now : Int) (req : ModifyRequest)
    (d : Int) (pid : Nat) (plan : PricingPlan)
    (hdata : req.data_limit_gb = none)
    (hexp : req.expire_days_to_add = some d)
    (hdpos : 0 < d)
    (hpid : ap.pricing_plan_id = some pid)
    (hplan : ap.pricing_plan = some plan)
    (hdur : plan.duration_days ≠ d) :
    modifyBilling (some ap) u now req = .error (.durationMismatch d plan.duration_days) := by
  unfold modifyBilling modifyBillingData modifyBillingExpiry
  rw [hdata, hexp]
  simp [not_le.mpr hdpos, hpid, hplan, hdur]

/-- An extension request of exactly the plan duration is billed at the
plan price. -/
theorem modifyBilling_duration_match (ap : ResellerPricing)
    (u : LocalMarzbanUser) (now : Int) (req : ModifyRequest)
    (d : Int) (pid : Nat) (plan : PricingPlan)
    (hdata : req.data_limit_gb = none)
    (hexp : req.expire_days_to_add = some d)
    (hdpos : 0 < d)
    (hpid : ap.pricing_plan_id = some pid)
    (hplan : ap.pricing_plan = some plan)
    (hdur : plan.duration_days = d) :
    modifyBilling (some ap) u now req =
      .ok { cost := plan.price,
            payload := { data_limit := none,
                         expire := some (newExpireTs now u.stored_expire d),
                         proxies := req.proxies_present,
                         inbounds := req.inbounds_present },
            pricing_plan_id_for_tx := some pid,
            reseller_pricing_id_for_tx := some ap.id,
            data_charged := false,
            renewal_charged := true } := by
  unfold modifyBilling modifyBillingData modifyBillingExpiry
  rw [hdata, hexp]
  simp [not_le.mpr hdpos, hpid, hplan, hdur]

/-- Step 2 of create on a plan-based configuration: the cost is the plan
price, regardless of any requested duration. -/
theorem createCost_plan_based (ap : ResellerPricing) (gb : Option ℚ)
    (pid : Nat) (plan : PricingPlan)
    (hcustom : ap.custom_price_per_gb = none)
    (hpid : ap.pricing_plan_id = some pid)
    (hplan : ap.pricing_plan = some plan) :
    createCost ap gb = .ok (plan.price, some pid) := by
  unfold createCost
  rw [hcustom, hpid, hplan]

/-- C3 (amended): with plan-based pricing, the strict duration match
applies only to modifyUser extensions: requesting exactly the plan
duration bills plan.price, any other positive day count is rejected with
an error naming the expected duration and applies no charge.  createUser,
by contrast, charges plan.price whatever expire_days the caller requested
(the source comment says the plan only determines cost there). -/
theorem C3_plan_duration_strict_only_modify (pricing_db : List ResellerPricing)
    (cenv : CreateEnv) (menv : ModifyEnv) (reseller : Reseller)
    (creq : CreateRequest) (mreq : ModifyRequest)
    (panel : MarzbanPanel) (u : LocalMarzbanUser) (ap : ResellerPricing)
    (pid : Nat) (plan : PricingPlan) (d : Int)
    (hacc : reseller.panels.contains creq.marzban_panel_id = true)
    (hpanel : cenv.panel_lookup = some panel)
    (hap : get_active_pricing_for_reseller pricing_db reseller.id (some panel.id) = some ap)
    (huser : menv.user_lookup = some u)
    (hmpanel : menv.panel_of_user = some panel)
    (hcustom : ap.custom_price_per_gb = none)
    (hpid : ap.pricing_plan_id = some pid)
    (hplan : ap.pricing_plan = some plan)
    (hdata : mreq.data_limit_gb = none)
    (hexp : mreq.expire_days_to_add = some d)
    (hdpos : 0 < d) :
    (plan.duration_days = d →
      modifyBilling (get_active_pricing_for_reseller pricing_db reseller.id (some panel.id))
          u menv.now mreq =
        .ok { cost := plan.price,
              payload := { data_limit := none,
                           expire := some (newExpireTs menv.now u.stored_expire d),
                           proxies := mreq.proxies_present,
                           inbounds := mreq.inbounds_present },
              pricing_plan_id_for_tx := some pid,
              reseller_pricing_id_for_tx := some ap.id,
              data_charged := false,
              renewal_charged := true }) ∧
    (plan.duration_days ≠ d →
      modify_marzban_user_for_reseller pricing_db menv reseller mreq =
        ⟨.error (.durationMismatch d plan.duration_days), Effects.none⟩) ∧
    (createCost ap creq.data_limit_gb = .ok (plan.price, some pid)) ∧
    (∀ s, (create_marzban_user_for_reseller pricing_db cenv reseller creq).result = .ok s →
      s.new_wallet_balance = reseller.wallet_balance - plan.price) := by
  refine ⟨?_, ?_, ?_, ?_⟩
  · intro hdur
    rw [hap]
    exact modifyBilling_duration_match ap u menv.now mreq d pid plan
      hdata hexp hdpos hpid hplan hdur
  · intro hdur
    refine modify_reduces_billing_error pricing_db menv reseller mreq u panel _
      huser hmpanel ?_
    rw [hap]
    exact modifyBilling_duration_mismatch ap u menv.now mreq d pid plan
      hdata hexp hdpos hpid hplan hdur
  · exact createCost_plan_based ap creq.data_limit_gb pid plan hcustom hpid hplan
  · intro s hs
    rw [create_reduces_to_wallet_check pricing_db cenv reseller creq panel ap
          plan.price (some pid) hacc hpanel hap
          (createCost_plan_based ap creq.data_limit_gb pid plan hcustom hpid hplan)] at hs
    split at hs
    · simp at hs
    · exact createRemoteAndCommit_ok_balance cenv reseller panel ap plan.price (some pid) s hs

/-- C3 witness: plan of 30 days at 20.00; a modify extension of exactly 30
days and a create request, both against the same plan-based pricing. -/
theorem C3_plan_duration_strict_only_modify_witness :
    reseller100.panels.contains createReq7d.marzban_panel_id = true ∧
    createEnvOk.panel_lookup = some panel1 ∧
    get_active_pricing_for_reseller [planPricing1] reseller100.id (some panel1.id) = some planPricing1 ∧
    modifyEnvOk.user_lookup = some bobUser ∧
    modifyEnvOk.panel_of_user = some panel1 ∧
    planPricing1.custom_price_per_gb = none ∧
    planPricing1.pricing_plan_id = some 3 ∧
    planPricing1.pricing_plan = some plan30 ∧
    modifyReq30d.data_limit_gb = none ∧
    modifyReq30d.expire_days_to_add = some 30 ∧
    (0 : Int) < 30 ∧
    ((plan30.duration_days = 30 →
      modifyBilling (get_active_pricing_for_reseller [planPricing1] reseller100.id (some panel1.id))
          bobUser modifyEnvOk.now modifyReq30d =
        .ok { cost := plan30.price,
              payload := { data_limit := none,
                           expire := some (newExpireTs modifyEnvOk.now bobUser.stored_expire 30),
                           proxies := modifyReq30d.proxies_present,
                           inbounds := modifyReq30d.inbounds_present },
              pricing_plan_id_for_tx := some 3,
              reseller_pricing_id_for_tx := some planPricing1.id,
              data_charged := false,
              renewal_charged := true }) ∧
     (plan30.duration_days ≠ 30 →
      modify_marzban_user_for_reseller [planPricing1] modifyEnvOk reseller100 modifyReq30d =
        ⟨.error (.durationMismatch 30 plan30.duration_days), Effects.none⟩) ∧
     (createCost planPricing1 createReq7d.data_limit_gb = .ok (plan30.price, some 3)) ∧
     (∀ s, (create_marzban_user_for_reseller [planPricing1] createEnvOk reseller100 createReq7d).result = .ok s →
       s.new_wallet_balance = reseller100.wallet_balance - plan30.price)) :=
  ⟨rfl, rfl, rfl, rfl, rfl, rfl, rfl, rfl, rfl, rfl, by norm_num,
   C3_plan_duration_strict_only_modify [planPricing1] createEnvOk modifyEnvOk reseller100
     createReq7d modifyReq30d panel1 bobUser planPricing1 3 plan30 30
     rfl rfl rfl rfl rfl rfl rfl rfl rfl rfl (by norm_num)⟩

/-- C3 counterexample: with plan-based pricing (plan duration 30), a create
request asking for 7 days succeeds and is charged the full plan price
20.00: no validation error names the expected duration, and the charge is
applied, contradicting the claim for createUser. -/
theorem C3_create_ignores_duration_counterexample :
    plan30.duration_days = 30 ∧
    createReq7d.expire_days = some 7 ∧
    (create_marzban_user_for_reseller [planPricing1] createEnvOk reseller100 createReq7d) =
      ⟨.ok { new_wallet_balance := 80, mirror_username := "alice", created_by_new_panel := true },
       { remote_create_called := true, remote_update_called := false, sent_payload := none,
         ledger_entries := [{ reseller_id := 1, transaction_type := "user_creation_cost",
                              amount := -20, pricing_plan_id := some 3,
                              reseller_pricing_id := some 12 }],
         wallet_delta := -20 }⟩ := by
  refine ⟨rfl, rfl, ?_⟩
  norm_num [create_marzban_user_for_reseller, createRemoteAndCommit, createCost,
    get_active_pricing_for_reseller, planPricing1, plan30, createEnvOk, reseller100,
    createReq7d, truthyStr, Effects.none, panel1]
  rw [if_neg (by decide), if_neg (by decide)]


/-- C4: with unit-rate pricing the charged cost is requestedDataGB times
the configured per-GB rate, rounded to 2 decimal places half-up (0.50 *
2.333 gives 1.17); a missing or non-positive requestedDataGB is rejected
with a validation error by createUser, and a non-positive one by the
data-limit branch of modifyUser. -/
theorem C4_unit_rate_cost (ap : ResellerPricing) (rate : ℚ)
    (u : LocalMarzbanUser) (now : Int) (mreq : ModifyRequest)
    (ap2 : ResellerPricing) (rate2 : ℚ) (gb : ℚ)
    (hcustom : ap.custom_price_per_gb = some rate)
    (hcustom2 : ap2.custom_price_per_gb = some rate2)
    (hgb : mreq.data_limit_gb = some gb) :
    (createCost ap none = .error .gbValidation) ∧
    (∀ g : ℚ, g ≤ 0 → createCost ap (some g) = .error .gbValidation) ∧
    (∀ g : ℚ, 0 < g → createCost ap (some g) = .ok (quantize2 (g * rate), none)) ∧
    (gb ≤ 0 → modifyBilling (some ap2) u now mreq = .error .gbNotPositive) ∧
    (0 < gb → mreq.expire_days_to_add = none →
      modifyBilling (some ap2) u now mreq =
        .ok { cost := quantize2 (gb * rate2),
              payload := { data_limit := some (gb_to_bytes gb), expire := none,
                           proxies := mreq.proxies_present,
                           inbounds := mreq.inbounds_present },
              pricing_plan_id_for_tx := none,
              reseller_pricing_id_for_tx := some ap2.id,
              data_charged := true, renewal_charged := false }) ∧
    (quantize2 (2333/1000 * (1/2)) = 117/100 ∧ quantize2 (3 * (1/2)) = 3/2) := by
  refine ⟨?_, ?_, ?_, ?_, ?_, ?_, ?_⟩
  · unfold createCost
    rw [hcustom]
  · intro g hg
    unfold createCost
    rw [hcustom]
    simp [hg]
  · intro g hg
    unfold createCost
    rw [hcustom]
    simp [not_le.mpr hg]
  · intro hle
    unfold modifyBilling modifyBillingData
    rw [hgb]
    simp [hle]
  · intro hpos hexp
    unfold modifyBilling modifyBillingData modifyBillingExpiry
    rw [hgb, hexp]
    simp [not_le.mpr hpos, hcustom2]
  · norm_num [quantize2]
  · norm_num [quantize2]

/-- C4 witness: rate 5.00/GB, request of 3 GB. -/
theorem C4_unit_rate_cost_witness :
    gbPricing1.custom_price_per_gb = some 5 ∧
    modifyReqGB3.data_limit_gb = some 3 ∧
    ((createCost gbPricing1 none = .error .gbValidation) ∧
     (∀ g : ℚ, g ≤ 0 → createCost gbPricing1 (some g) = .error .gbValidation) ∧
     (∀ g : ℚ, 0 < g → createCost gbPricing1 (some g) = .ok (quantize2 (g * 5), none)) ∧
     ((3 : ℚ) ≤ 0 → modifyBilling (some gbPricing1) bobUser 1000 modifyReqGB3 = .error .gbNotPositive) ∧
     ((0 : ℚ) < 3 → modifyReqGB3.expire_days_to_add = none →
       modifyBilling (some gbPricing1) bobUser 1000 modifyReqGB3 =
         .ok { cost := quantize2 (3 * 5),
               payload := { data_limit := some (gb_to_bytes 3), expire := none,
                            proxies := modifyReqGB3.proxies_present,
                            inbounds := modifyReqGB3.inbounds_present },
               pricing_plan_id_for_tx := none,
               reseller_pricing_id_for_tx := some gbPricing1.id,
               data_charged := true, renewal_charged := false }) ∧
     (quantize2 (2333/1000 * (1/2)) = 117/100 ∧ quantize2 (3 * (1/2)) = 3/2)) :=
  ⟨rfl, rfl,
   C4_unit_rate_cost gbPricing1 5 bobUser 1000 modifyReqGB3 gbPricing1 5 3 rfl rfl rfl⟩

/-- Generic (panel = none) unit-rate pricing for reseller 1. -/
def genPricing1 : ResellerPricing :=
  { id := 13, reseller_id := 1, pricing_plan_id := none, pricing_plan := none,
    custom_price_per_gb := some 7, marzban_panel_id := none }

/-- C5: resolution for (reseller, panel) returns the panel-specific config
when one exists, else falls back to the generic (panel = none) config; when
neither exists createUser fails with the no-pricing-configured error and no
effects, instead of proceeding at zero cost. -/
theorem C5_pricing_resolution (db : List ResellerPricing) (rid pid : Nat)
    (pricing_db : List ResellerPricing) (cenv : CreateEnv) (reseller : Reseller)
    (creq : CreateRequest) (panel : MarzbanPanel)
    (hacc : reseller.panels.contains creq.marzban_panel_id = true)
    (hpanel : cenv.panel_lookup = some panel)
    (hnone : get_active_pricing_for_reseller pricing_db reseller.id (some panel.id) = none) :
    (∀ p, (db.filter (fun q =>
        q.reseller_id == rid && q.marzban_panel_id == some pid)).head? = some p →
      get_active_pricing_for_reseller db rid (some pid) = some p) ∧
    ((db.filter (fun q =>
        q.reseller_id == rid && q.marzban_panel_id == some pid)) = [] →
      get_active_pricing_for_reseller db rid (some pid) =
        (db.filter (fun q =>
          q.reseller_id == rid && q.marzban_panel_id == none)).head?) ∧
    ((db.filter (fun q =>
        q.reseller_id == rid && q.marzban_panel_id == some pid)) = [] →
     (db.filter (fun q =>
        q.reseller_id == rid && q.marzban_panel_id == none)) = [] →
      get_active_pricing_for_reseller db rid (some pid) = none) ∧
    (create_marzban_user_for_reseller pricing_db cenv reseller creq =
      ⟨.error .noPricing, Effects.none⟩) := by
  refine ⟨?_, ?_, ?_, ?_⟩
  · intro p hp
    unfold get_active_pricing_for_reseller
    dsimp only
    rw [hp]
  · intro hps
    unfold get_active_pricing_for_reseller
    dsimp only
    rw [hps]
    rfl
  · intro hps hgen
    unfold get_active_pricing_for_reseller
    dsimp only
    rw [hps, hgen]
    rfl
  · unfold create_marzban_user_for_reseller
    rw [if_neg (by simpa using hacc), hpanel]
    dsimp only
    rw [hnone]

/-- C5 witness: a table with a panel-specific and a generic config, and an
empty table for the createUser failure. -/
theorem C5_pricing_resolution_witness :
    reseller10.panels.contains createReqGB3.marzban_panel_id = true ∧
    createEnvOk.panel_lookup = some panel1 ∧
    get_active_pricing_for_reseller [] reseller10.id (some panel1.id) = none ∧
    ((∀ p, (([gbPricing1, genPricing1] : List ResellerPricing).filter (fun q =>
        q.reseller_id == 1 && q.marzban_panel_id == some 1)).head? = some p →
      get_active_pricing_for_reseller [gbPricing1, genPricing1] 1 (some 1) = some p) ∧
     ((([gbPricing1, genPricing1] : List ResellerPricing).filter (fun q =>
        q.reseller_id == 1 && q.marzban_panel_id == some 1)) = [] →
      get_active_pricing_for_reseller [gbPricing1, genPricing1] 1 (some 1) =
        (([gbPricing1, genPricing1] : List ResellerPricing).filter (fun q =>
          q.reseller_id == 1 && q.marzban_panel_id == none)).head?) ∧
     ((([gbPricing1, genPricing1] : List ResellerPricing).filter (fun q =>
        q.reseller_id == 1 && q.marzban_panel_id == some 1)) = [] →
      (([gbPricing1, genPricing1] : List ResellerPricing).filter (fun q =>
        q.reseller_id == 1 && q.marzban_panel_id == none)) = [] →
      get_active_pricing_for_reseller [gbPricing1, genPricing1] 1 (some 1) = none) ∧
     (create_marzban_user_for_reseller [] createEnvOk reseller10 createReqGB3 =
       ⟨.error .noPricing, Effects.none⟩)) ∧
    get_active_pricing_for_reseller [gbPricing1, genPricing1] 1 (some 1) = some gbPricing1 ∧
    get_active_pricing_for_reseller [genPricing1] 1 (some 1) = some genPricing1 :=
  ⟨rfl, rfl, rfl,
   C5_pricing_resolution [gbPricing1, genPricing1] 1 1 [] createEnvOk reseller10
     createReqGB3 panel1 rfl rfl rfl,
   rfl, rfl⟩


/-- A payload recorded as sent by the commit phase is the billing payload. -/
theorem modifyCommitted_sent_inv (env : ModifyEnv) (reseller : Reseller)
    (req : ModifyRequest) (u : LocalMarzbanUser) (p : MarzbanPanel)
    (b : ModifyBilling) (rc : Bool) (pl : Option Int × Option Int)
    (h : (modifyCommitted env reseller req u p b rc).effects.sent_payload = some pl) :
    pl = (b.payload.data_limit, b.payload.expire) := by
  unfold modifyCommitted at h
  by_cases hdb : env.db_commit_ok
  · simp [hdb] at h
    exact h.2.symm
  · simp [hdb] at h
    exact h.2.symm

/-- A payload recorded as sent by the remote phase is the billing payload. -/
theorem modifyRemoteAndCommit_sent_inv (env : ModifyEnv) (reseller : Reseller)
    (req : ModifyRequest) (u : LocalMarzbanUser) (p : MarzbanPanel)
    (b : ModifyBilling) (pl : Option Int × Option Int)
    (h : (modifyRemoteAndCommit env reseller req u p b).effects.sent_payload = some pl) :
    pl = (b.payload.data_limit, b.payload.expire) := by
  unfold modifyRemoteAndCommit at h
  split at h
  · exact modifyCommitted_sent_inv env reseller req u p b false pl h
  · split at h
    · simp [Effects.none] at h
    · split at h
      · simp [Effects.none] at h
      · split at h
        · simp at h
          exact h.symm
        · simp at h
          exact h.symm
        · exact modifyCommitted_sent_inv env reseller req u p b true pl h

/-- Whenever a modify run records a sent payload, the run resolved the
user, the panel and the billing, and the payload is the billing payload. -/
theorem modify_sent_payload_inv (pricing_db : List ResellerPricing)
    (env : ModifyEnv) (reseller : Reseller) (req : ModifyRequest)
    (pl : Option Int × Option Int)
    (h : (modify_marzban_user_for_reseller pricing_db env reseller req).effects.sent_payload
          = some pl) :
    ∃ u panel b, env.user_lookup = some u ∧ env.panel_of_user = some panel ∧
      modifyBilling (get_active_pricing_for_reseller pricing_db reseller.id (some panel.id))
          u env.now req = .ok b ∧
      pl = (b.payload.data_limit, b.payload.expire) := by
  unfold modify_marzban_user_for_reseller at h
  split at h
  · simp [Effects.none] at h
  · next u hu =>
    split at h
    · simp [Effects.none] at h
    · next panel hpanel =>
      split at h
      · simp [Effects.none] at h
      · next b hb =>
        split at h
        · simp [Effects.none] at h
        · split at h
          · simp [Effects.none] at h
          · exact ⟨u, panel, b, hu, hpanel, hb,
              modifyRemoteAndCommit_sent_inv env reseller req u panel b pl h⟩

/-- The data branch never sets the expire field. -/
theorem modifyBillingData_expire_none (ap : Option ResellerPricing)
    (req : ModifyRequest) (b1 : ModifyBilling)
    (h : modifyBillingData ap req = .ok b1) :
    b1.payload.expire = none := by
  unfold modifyBillingData at h
  split at h
  · simp at h
    rw [← h]
  · split at h
    · simp at h
    · split at h
      · simp at h
      · split at h
        · simp at h
        · simp at h
          rw [← h]

/-- A successful expiry branch with a requested day count sets the expire
field to newExpireTs. -/
theorem modifyBillingExpiry_sets_expire (ap : Option ResellerPricing)
    (u : LocalMarzbanUser) (now : Int) (req : ModifyRequest)
    (b1 b2 : ModifyBilling) (d : Int)
    (h : modifyBillingExpiry ap u now req b1 = .ok b2)
    (hexp : req.expire_days_to_add = some d) :
    b2.payload.expire = some (newExpireTs now u.stored_expire d) := by
  unfold modifyBillingExpiry at h
  rw [hexp] at h
  dsimp only at h
  split at h
  · simp at h
  · split at h
    · simp at h
    · split at h
      · split at h
        · simp at h
          rw [← h]
        · simp at h
      · simp at h

/-- The expire field of a successful billing with a requested day count is
newExpireTs. -/
theorem modifyBilling_expire_value (ap : Option ResellerPricing)
    (u : LocalMarzbanUser) (now : Int) (req : ModifyRequest)
    (b : ModifyBilling) (d : Int)
    (h : modifyBilling ap u now req = .ok b)
    (hexp : req.expire_days_to_add = some d) :
    b.payload.expire = some (newExpireTs now u.stored_expire d) := by
  unfold modifyBilling at h
  split at h
  · simp at h
  · next b1 hb1 =>
    split at h
    · simp at h
    · next b2 hb2 =>
      simp at h
      rw [← h]
      exact modifyBillingExpiry_sets_expire ap u now req b1 b2 d hb2 hexp

/-- For a non-negative clock, the base of the extension is exactly
max(now, stored expiry) when an expiry is stored, else now. -/
theorem newExpireTs_eq_max (now ts d : Int) (h : 0 ≤ now) :
    newExpireTs now (some ts) d = max now ts + d * 86400 ∧
    newExpireTs now none d = now + d * 86400 := by
  unfold newExpireTs
  dsimp only
  constructor
  · split
    · next hc => rw [max_eq_right (le_of_lt hc.2)]
    · next hc =>
      push_neg at hc
      rcases le_or_lt ts 0 with h1 | h2
      · rw [max_eq_left (le_trans h1 h)]
      · rw [max_eq_left (hc h2)]
  · rfl


/-- C6: the new remote expiry sent to the panel on an extend-by-days
request equals max(now, last-known remote expiry) plus the requested days
(in seconds); an absent, zero or past stored expiry makes the extension
start from now. -/
theorem C6_expiry_from_max_now (pricing_db : List ResellerPricing)
    (env : ModifyEnv) (reseller : Reseller) (req : ModifyRequest)
    (u : LocalMarzbanUser) (d : Int) (pl : Option Int × Option Int)
    (huser : env.user_lookup = some u)
    (hexp : req.expire_days_to_add = some d)
    (hnow : 0 ≤ env.now)
    (hsent : (modify_marzban_user_for_reseller pricing_db env reseller req).effects.sent_payload
              = some pl) :
    pl.2 = some ((match u.stored_expire with
                  | some ts => max env.now ts
                  | none => env.now) + d * 86400) := by
  obtain ⟨u2, panel, b, hu2, hpanel, hb, hpl⟩ :=
    modify_sent_payload_inv pricing_db env reseller req pl hsent
  rw [huser] at hu2
  injection hu2 with hu2
  subst hu2
  rw [hpl]
  dsimp only
  rw [modifyBilling_expire_value _ u env.now req b d hb hexp]
  cases hst : u.stored_expire with
  | none =>
      rw [(newExpireTs_eq_max env.now 0 d hnow).2]
  | some ts =>
      rw [(newExpireTs_eq_max env.now ts d hnow).1]

/-- Concrete modify run used by the C6 witness. -/
theorem modify_sent_payload_sample_eval :
    (modify_marzban_user_for_reseller [planPricing1] modifyEnvOk reseller100 modifyReq30d).effects.sent_payload
      = some (none, some 2593000) := by
  norm_num [modify_marzban_user_for_reseller, modifyRemoteAndCommit, modifyCommitted,
    modifyBilling, modifyBillingData, modifyBillingExpiry, get_active_pricing_for_reseller,
    planPricing1, plan30, modifyEnvOk, reseller100, modifyReq30d, bobUser, panel1,
    UpdatePayload.isEmpty, Effects.none, truthyStr, newExpireTs]
  rw [if_neg (by decide)]

/-- C6 witness: plan-based extension of 30 days, stored expiry absent, now
= 1000: the expiry sent to the panel is 1000 + 30 * 86400 = 2593000. -/
theorem C6_expiry_from_max_now_witness :
    modifyEnvOk.user_lookup = some bobUser ∧
    modifyReq30d.expire_days_to_add = some 30 ∧
    (0 : Int) ≤ modifyEnvOk.now ∧
    (modify_marzban_user_for_reseller [planPricing1] modifyEnvOk reseller100 modifyReq30d).effects.sent_payload
      = some (none, some 2593000) ∧
    ((none, some 2593000) : Option Int × Option Int).2 =
      some ((match bobUser.stored_expire with
             | some ts => max modifyEnvOk.now ts
             | none => modifyEnvOk.now) + 30 * 86400) := by
  refine ⟨rfl, rfl, by norm_num [modifyEnvOk], modify_sent_payload_sample_eval, ?_⟩
  exact C6_expiry_from_max_now [planPricing1] modifyEnvOk reseller100 modifyReq30d bobUser 30
    (none, some 2593000) rfl rfl (by norm_num [modifyEnvOk]) modify_sent_payload_sample_eval

/-- The Python exception a create outcome raises, when it raises. -/
def CreateOutcome.raised (o : CreateOutcome) : Option PyExc :=
  match o.result with
  | .error e => some e.toPyExc
  | .ok _ => none

/-- The Python exception a modify outcome raises, when it raises. -/
def ModifyOutcome.raised (o : ModifyOutcome) : Option PyExc :=
  match o.result with
  | .error e => some e.toPyExc
  | .ok _ => none

/-- Environment whose remote create call fails with a username-conflict
response (HTTP 409, detail a dict keyed by username). -/
def conflictCreateEnv : CreateEnv :=
  { createEnvOk with
      remote_create := .error (createUserClientError 409 (.usernameDict "User already exists")) }

/-- Environment whose remote create call fails with a generic server error. -/
def serverErrorCreateEnv : CreateEnv :=
  { createEnvOk with
      remote_create := .error (createUserClientError 500 (.plain "Internal Server Error")) }

/-- C7 counterexample: a username-conflict remote failure (HTTP 409,
dict detail keyed by username) and a generic server failure (HTTP 500)
surface through the same Python exception class MarzbanUserServiceError:
there is no distinct RemoteUsernameConflict class. -/
theorem C7_conflict_same_class_counterexample :
    (create_marzban_user_for_reseller [gbPricing1] conflictCreateEnv reseller100 createReqGB3).raised.map
        PyExc.className = some "MarzbanUserServiceError" ∧
    (create_marzban_user_for_reseller [gbPricing1] serverErrorCreateEnv reseller100 createReqGB3).raised.map
        PyExc.className = some "MarzbanUserServiceError" ∧
    (create_marzban_user_for_reseller [gbPricing1] conflictCreateEnv reseller100 createReqGB3).raised.map
        PyExc.className =
      (create_marzban_user_for_reseller [gbPricing1] serverErrorCreateEnv reseller100 createReqGB3).raised.map
        PyExc.className := by
  have hcost : createCost gbPricing1 createReqGB3.data_limit_gb = .ok (15, none) := by
    norm_num [createCost, gbPricing1, createReqGB3, quantize2]
  have h1 := create_reduces_to_wallet_check [gbPricing1] conflictCreateEnv reseller100
    createReqGB3 panel1 gbPricing1 15 none rfl rfl rfl hcost
  have h2 := create_reduces_to_wallet_check [gbPricing1] serverErrorCreateEnv reseller100
    createReqGB3 panel1 gbPricing1 15 none rfl rfl rfl hcost
  rw [if_neg (by norm_num [reseller100])] at h1 h2
  have s1 : createRemoteAndCommit conflictCreateEnv reseller100 panel1 gbPricing1 15 none =
      ⟨.error (.remoteApi (createUserClientErrorMessage 409 (.usernameDict "User already exists"))),
       { Effects.none with remote_create_called := true }⟩ := by
    unfold createRemoteAndCommit
    rfl
  have s2 : createRemoteAndCommit serverErrorCreateEnv reseller100 panel1 gbPricing1 15 none =
      ⟨.error (.remoteApi (createUserClientErrorMessage 500 (.plain "Internal Server Error"))),
       { Effects.none with remote_create_called := true }⟩ := by
    unfold createRemoteAndCommit
    rfl
  rw [h1, s1, h2, s2]
  refine ⟨rfl, rfl, rfl⟩
/-- C7 (amended): every remote create failure, username conflict
included, surfaces as the single class MarzbanUserServiceError wrapping
the client message with the prefix Marzban API error; a username-conflict
response is distinguished only inside the message text (the client embeds
the Username - marker together with the upstream status), not by a
distinct error class. -/
theorem C7_remote_failures_single_class (pricing_db : List ResellerPricing)
    (env : CreateEnv) (reseller : Reseller) (req : CreateRequest)
    (panel : MarzbanPanel) (ap : ResellerPricing) (cost : ℚ) (pid : Option Nat)
    (pw : String) (tok : String) (status : Int) (detail : HttpErrorDetail)
    (m s : String)
    (hacc : reseller.panels.contains req.marzban_panel_id = true)
    (hpanel : env.panel_lookup = some panel)
    (hap : get_active_pricing_for_reseller pricing_db reseller.id (some panel.id) = some ap)
    (hcost : createCost ap req.data_limit_gb = .ok (cost, pid))
    (hfunds : ¬ (reseller.wallet_balance < cost ∧ ¬ reseller.allow_negative_balance))
    (hpw : env.decrypted_password = some pw)
    (htok : truthyStr env.token = some tok)
    (hremote : env.remote_create = .error (createUserClientError status detail)) :
    ((create_marzban_user_for_reseller pricing_db env reseller req).result =
        .error (.remoteApi (createUserClientErrorMessage status detail))) ∧
    ((create_marzban_user_for_reseller pricing_db env reseller req).effects =
        { Effects.none with remote_create_called := true }) ∧
    ((CreateErr.remoteApi (createUserClientErrorMessage status (.usernameDict m))).toPyExc =
      .serviceError ("Marzban API error: Failed to create Marzban user (HTTP "
        ++ toString status ++ "): Username - " ++ m)) ∧
    ((CreateErr.remoteApi (createUserClientErrorMessage status (.plain s))).toPyExc =
      .serviceError ("Marzban API error: Failed to create Marzban user (HTTP "
        ++ toString status ++ "): " ++ s)) ∧
    (∀ e : CreateErr, e.toPyExc.className = "MarzbanUserServiceError") := by
  have hrun : create_marzban_user_for_reseller pricing_db env reseller req =
      ⟨.error (.remoteApi (createUserClientErrorMessage status detail)),
       { Effects.none with remote_create_called := true }⟩ := by
    rw [create_reduces_to_wallet_check pricing_db env reseller req panel ap cost pid
          hacc hpanel hap hcost, if_neg hfunds]
    unfold createRemoteAndCommit
    rw [hpw]
    dsimp only
    rw [htok]
    dsimp only
    rw [hremote]
    dsimp only [createUserClientError]
  refine ⟨by rw [hrun], by rw [hrun], rfl, rfl, ?_⟩
  intro e
  cases e <;> rfl
/-- C7 witness: a concrete conflict run (HTTP 409). -/
theorem C7_remote_failures_single_class_witness :
    reseller100.panels.contains createReqGB3.marzban_panel_id = true ∧
    conflictCreateEnv.panel_lookup = some panel1 ∧
    get_active_pricing_for_reseller [gbPricing1] reseller100.id (some panel1.id) = some gbPricing1 ∧
    createCost gbPricing1 createReqGB3.data_limit_gb = .ok (15, none) ∧
    (¬ (reseller100.wallet_balance < 15 ∧ ¬ reseller100.allow_negative_balance)) ∧
    conflictCreateEnv.decrypted_password = some "pw" ∧
    truthyStr conflictCreateEnv.token = some "tok" ∧
    conflictCreateEnv.remote_create =
      .error (createUserClientError 409 (.usernameDict "User already exists")) ∧
    (((create_marzban_user_for_reseller [gbPricing1] conflictCreateEnv reseller100 createReqGB3).result =
        .error (.remoteApi (createUserClientErrorMessage 409 (.usernameDict "User already exists")))) ∧
     ((create_marzban_user_for_reseller [gbPricing1] conflictCreateEnv reseller100 createReqGB3).effects =
        { Effects.none with remote_create_called := true }) ∧
     ((CreateErr.remoteApi (createUserClientErrorMessage 409 (.usernameDict "taken"))).toPyExc =
       .serviceError ("Marzban API error: Failed to create Marzban user (HTTP "
         ++ toString (409 : Int) ++ "): Username - " ++ "taken")) ∧
     ((CreateErr.remoteApi (createUserClientErrorMessage 409 (.plain "err"))).toPyExc =
       .serviceError ("Marzban API error: Failed to create Marzban user (HTTP "
         ++ toString (409 : Int) ++ "): " ++ "err")) ∧
     (∀ e : CreateErr, e.toPyExc.className = "MarzbanUserServiceError")) :=
  ⟨rfl, rfl, rfl,
   by norm_num [createCost, gbPricing1, createReqGB3, quantize2],
   by norm_num [reseller100], rfl, rfl, rfl,
   C7_remote_failures_single_class [gbPricing1] conflictCreateEnv reseller100 createReqGB3
     panel1 gbPricing1 15 none "pw" "tok" 409 (.usernameDict "User already exists") "taken" "err"
     rfl rfl rfl
     (by norm_num [createCost, gbPricing1, createReqGB3, quantize2])
     (by norm_num [reseller100]) rfl rfl rfl⟩

/-- Environment whose remote create succeeds but whose local commit fails. -/
def dbFailCreateEnv : CreateEnv :=
  { createEnvOk with db_commit_ok := false, db_error_message := "IntegrityError" }

/-- Environment whose remote update succeeds but whose local commit fails. -/
def dbFailModifyEnv : ModifyEnv :=
  { modifyEnvOk with db_commit_ok := false, db_error_message := "IntegrityError" }

/-- C8 counterexample: the remote-succeeded-but-commit-failed condition is
surfaced with the same Python exception class MarzbanUserServiceError as an
ordinary pre-remote failure (here: no pricing configured): there is no
distinct PostRemoteCommitFailure class. -/
theorem C8_commit_failure_same_class_counterexample :
    (create_marzban_user_for_reseller [gbPricing1] dbFailCreateEnv reseller100 createReqGB3).raised.map
        PyExc.className = some "MarzbanUserServiceError" ∧
    (create_marzban_user_for_reseller [] createEnvOk reseller100 createReqGB3).raised.map
        PyExc.className = some "MarzbanUserServiceError" ∧
    (create_marzban_user_for_reseller [gbPricing1] dbFailCreateEnv reseller100 createReqGB3).raised.map
        PyExc.className =
      (create_marzban_user_for_reseller [] createEnvOk reseller100 createReqGB3).raised.map
        PyExc.className := by
  have hcost : createCost gbPricing1 createReqGB3.data_limit_gb = .ok (15, none) := by
    norm_num [createCost, gbPricing1, createReqGB3, quantize2]
  have h1 := create_reduces_to_wallet_check [gbPricing1] dbFailCreateEnv reseller100
    createReqGB3 panel1 gbPricing1 15 none rfl rfl rfl hcost
  rw [if_neg (by norm_num [reseller100])] at h1
  have s1 : createRemoteAndCommit dbFailCreateEnv reseller100 panel1 gbPricing1 15 none =
      ⟨.error (.dbError "IntegrityError" "alice" "p1"),
       { Effects.none with remote_create_called := true }⟩ := by
    unfold createRemoteAndCommit
    rfl
  have h2 : create_marzban_user_for_reseller [] createEnvOk reseller100 createReqGB3 =
      ⟨.error .noPricing, Effects.none⟩ := by
    unfold create_marzban_user_for_reseller
    rw [if_neg (by norm_num [reseller100, createReqGB3])]
    rfl
  rw [h1, s1, h2]
  refine ⟨rfl, rfl, rfl⟩

/-- C8 (amended): when the remote mutation succeeded and the local commit
fails, createUser and modifyUser raise from the dedicated dbError site
whose message names the remote username and the panel for manual
reconciliation; the exception class is the same MarzbanUserServiceError
every other failure uses, not a distinct PostRemoteCommitFailure class. -/
theorem C8_post_remote_commit_failure (pricing_db : List ResellerPricing)
    (cenv : CreateEnv) (menv : ModifyEnv) (reseller : Reseller)
    (creq : CreateRequest) (mreq : ModifyRequest)
    (panel mpanel : MarzbanPanel) (ap : ResellerPricing) (cost : ℚ) (pid : Option Nat)
    (pw tok : String) (resp : RemoteCreateResponse) (uname : String)
    (u : LocalMarzbanUser) (b : ModifyBilling) (pw2 tok2 rdata : String)
    (hacc : reseller.panels.contains creq.marzban_panel_id = true)
    (hpanel : cenv.panel_lookup = some panel)
    (hap : get_active_pricing_for_reseller pricing_db reseller.id (some panel.id) = some ap)
    (hcost : createCost ap creq.data_limit_gb = .ok (cost, pid))
    (hfunds : ¬ (reseller.wallet_balance < cost ∧ ¬ reseller.allow_negative_balance))
    (hpw : cenv.decrypted_password = some pw)
    (htok : truthyStr cenv.token = some tok)
    (hremote : cenv.remote_create = .ok resp)
    (hrn : truthyStr resp.username = some uname)
    (hdb : cenv.db_commit_ok = false)
    (huser : menv.user_lookup = some u)
    (hmpanel : menv.panel_of_user = some mpanel)
    (hb : modifyBilling (get_active_pricing_for_reseller pricing_db reseller.id (some mpanel.id))
            u menv.now mreq = .ok b)
    (hne : b.payload.isEmpty = false)
    (hw : ¬ (0 < b.cost ∧ reseller.wallet_balance < b.cost ∧ ¬ reseller.allow_negative_balance))
    (hpw2 : menv.decrypted_password = some pw2)
    (htok2 : truthyStr menv.token = some tok2)
    (hremote2 : menv.remote_update = .ok (some rdata))
    (hdb2 : menv.db_commit_ok = false) :
    (create_marzban_user_for_reseller pricing_db cenv reseller creq =
      ⟨.error (.dbError cenv.db_error_message uname panel.name),
       { Effects.none with remote_create_called := true }⟩) ∧
    (modify_marzban_user_for_reseller pricing_db menv reseller mreq =
      ⟨.error (.dbError menv.db_error_message u.marzban_username mpanel.name),
       { Effects.none with
           remote_update_called := true,
           sent_payload := some (b.payload.data_limit, b.payload.expire) }⟩) ∧
    (∀ dm un pn, (CreateErr.dbError dm un pn).toPyExc =
      .serviceError ("Database error after Marzban user creation: " ++ dm
        ++ ". Manual reconciliation may be needed for user " ++ un
        ++ " on panel " ++ pn ++ ".")) ∧
    (∀ dm un pn, (ModifyErr.dbError dm un pn).toPyExc =
      .serviceError ("Database error after Marzban user modification: " ++ dm
        ++ ". Manual reconciliation may be needed for user " ++ un
        ++ " on panel " ++ pn ++ ".")) ∧
    (∀ e : ModifyErr, e.toPyExc.className = "MarzbanUserServiceError") := by
  refine ⟨?_, ?_, fun _ _ _ => rfl, fun _ _ _ => rfl, fun e => by cases e <;> rfl⟩
  · rw [create_reduces_to_wallet_check pricing_db cenv reseller creq panel ap cost pid
          hacc hpanel hap hcost, if_neg hfunds]
    unfold createRemoteAndCommit
    rw [hpw]
    dsimp only
    rw [htok]
    dsimp only
    rw [hremote]
    dsimp only
    rw [hrn]
    dsimp only
    rw [if_neg (by simp [hdb])]
  · rw [modify_reduces_to_checks pricing_db menv reseller mreq u mpanel b huser hmpanel hb,
        if_neg (by simp [hne]), if_neg hw]
    unfold modifyRemoteAndCommit
    rw [if_neg (by simp [hne]), hpw2]
    dsimp only
    rw [htok2]
    dsimp only
    rw [hremote2]
    dsimp only
    unfold modifyCommitted
    rw [if_neg (by simp [hdb2])]
    rfl

/-- C8 witness: remote create/update succeed, the local commit fails with
IntegrityError; both orchestrators surface the dbError site naming the
remote username and panel, through the single MarzbanUserServiceError
class. -/
theorem C8_post_remote_commit_failure_witness :
    reseller100.panels.contains createReqGB3.marzban_panel_id = true ∧
    dbFailCreateEnv.panel_lookup = some panel1 ∧
    get_active_pricing_for_reseller [gbPricing1] reseller100.id (some panel1.id) = some gbPricing1 ∧
    createCost gbPricing1 createReqGB3.data_limit_gb = .ok (15, none) ∧
    (¬ (reseller100.wallet_balance < 15 ∧ ¬ reseller100.allow_negative_balance)) ∧
    dbFailCreateEnv.decrypted_password = some "pw" ∧
    truthyStr dbFailCreateEnv.token = some "tok" ∧
    dbFailCreateEnv.remote_create = .ok { username := some "alice" } ∧
    truthyStr (some "alice") = some "alice" ∧
    dbFailCreateEnv.db_commit_ok = false ∧
    dbFailModifyEnv.user_lookup = some bobUser ∧
    dbFailModifyEnv.panel_of_user = some panel1 ∧
    modifyBilling (get_active_pricing_for_reseller [gbPricing1] reseller100.id (some panel1.id))
      bobUser dbFailModifyEnv.now modifyReqGB3 = .ok billing15 ∧
    billing15.payload.isEmpty = false ∧
    (¬ (0 < billing15.cost ∧ reseller100.wallet_balance < billing15.cost ∧
        ¬ reseller100.allow_negative_balance)) ∧
    dbFailModifyEnv.decrypted_password = some "pw" ∧
    truthyStr dbFailModifyEnv.token = some "tok" ∧
    dbFailModifyEnv.remote_update = .ok (some "resp") ∧
    dbFailModifyEnv.db_commit_ok = false ∧
    ((create_marzban_user_for_reseller [gbPricing1] dbFailCreateEnv reseller100 createReqGB3 =
       ⟨.error (.dbError dbFailCreateEnv.db_error_message "alice" panel1.name),
        { Effects.none with remote_create_called := true }⟩) ∧
     (modify_marzban_user_for_reseller [gbPricing1] dbFailModifyEnv reseller100 modifyReqGB3 =
       ⟨.error (.dbError dbFailModifyEnv.db_error_message bobUser.marzban_username panel1.name),
        { Effects.none with
            remote_update_called := true,
            sent_payload := some (billing15.payload.data_limit, billing15.payload.expire) }⟩) ∧
     (∀ dm un pn, (CreateErr.dbError dm un pn).toPyExc =
       .serviceError ("Database error after Marzban user creation: " ++ dm
         ++ ". Manual reconciliation may be needed for user " ++ un
         ++ " on panel " ++ pn ++ ".")) ∧
     (∀ dm un pn, (ModifyErr.dbError dm un pn).toPyExc =
       .serviceError ("Database error after Marzban user modification: " ++ dm
         ++ ". Manual reconciliation may be needed for user " ++ un
         ++ " on panel " ++ pn ++ ".")) ∧
     (∀ e : ModifyErr, e.toPyExc.className = "MarzbanUserServiceError")) :=
  ⟨rfl, rfl, rfl,
   by norm_num [createCost, gbPricing1, createReqGB3, quantize2],
   by norm_num [reseller100], rfl, rfl, rfl, rfl, rfl, rfl, rfl,
   by norm_num [modifyBilling, modifyBillingData, modifyBillingExpiry,
     get_active_pricing_for_reseller, gbPricing1, modifyReqGB3, dbFailModifyEnv, modifyEnvOk,
     reseller100, panel1, bobUser, quantize2, gb_to_bytes, pyInt, billing15],
   rfl,
   by norm_num [reseller100, billing15],
   rfl, rfl, rfl, rfl,
   C8_post_remote_commit_failure [gbPricing1] dbFailCreateEnv dbFailModifyEnv reseller100
     createReqGB3 modifyReqGB3 panel1 panel1 gbPricing1 15 none "pw" "tok"
     { username := some "alice" } "alice" bobUser billing15 "pw" "tok" "resp"
     rfl rfl rfl
     (by norm_num [createCost, gbPricing1, createReqGB3, quantize2])
     (by norm_num [reseller100]) rfl rfl rfl rfl rfl rfl rfl
     (by norm_num [modifyBilling, modifyBillingData, modifyBillingExpiry,
       get_active_pricing_for_reseller, gbPricing1, modifyReqGB3, dbFailModifyEnv, modifyEnvOk,
       reseller100, panel1, bobUser, quantize2, gb_to_bytes, pyInt, billing15])
     rfl
     (by norm_num [reseller100, billing15])
     rfl rfl rfl rfl⟩

/-- A (username, panel) key is present in the mirror table. -/
def keyPresent (db : List MirrorRow) (u : String) (pid : Nat) : Prop :=
  ∃ row ∈ db, row.marzban_username = u ∧ row.marzban_panel_id = pid

/-- The mirror lookup finds a row exactly when the key is present. -/
theorem syncLookup_isSome_iff (db : List MirrorRow) (u : String) (pid : Nat) :
    (get_marzban_user_by_username_and_panel db u pid).isSome ↔ keyPresent db u pid := by
  unfold get_marzban_user_by_username_and_panel keyPresent
  rw [List.find?_isSome]
  simp

/-- One sync iteration never removes a (username, panel) key. -/
theorem syncStep_preserves_key (rs : Reseller) (pa : MarzbanPanel)
    (st : SyncState) (r : RemoteUserRecord) (u : String) (pid : Nat)
    (h : keyPresent st.db u pid) :
    keyPresent (syncStep rs pa st r).db u pid := by
  obtain ⟨row, hmem, h1, h2⟩ := h
  unfold syncStep
  split
  · exact ⟨row, hmem, h1, h2⟩
  · split
    · exact ⟨if row.marzban_username == _ && row.marzban_panel_id == pa.id
             then { row with api_response_data := r.payload } else row,
        List.mem_map_of_mem _ hmem, by split <;> simp [h1, h2]⟩
    · exact ⟨row, List.mem_append_left _ hmem, h1, h2⟩

/-- After processing a record with a truthy username, its key is mirrored. -/
theorem syncStep_adds_key (rs : Reseller) (pa : MarzbanPanel)
    (st : SyncState) (r : RemoteUserRecord) (u : String)
    (hu : truthyStr r.username = some u) :
    keyPresent (syncStep rs pa st r).db u pa.id := by
  unfold syncStep
  rw [hu]
  dsimp only
  split
  · next row hrow =>
    have hmem := List.mem_of_find?_eq_some hrow
    have hpred := List.find?_some hrow
    simp at hpred
    refine ⟨{ row with api_response_data := r.payload }, ?_, hpred.1, hpred.2⟩
    have hfix : (fun q : MirrorRow =>
        if (q.marzban_username == u && q.marzban_panel_id == pa.id) = true then
          { q with api_response_data := r.payload } else q) row =
        { row with api_response_data := r.payload } := by
      simp [hpred.1, hpred.2]
    rw [← hfix]
    exact List.mem_map_of_mem _ hmem
  · refine ⟨{ marzban_username := u, marzban_panel_id := pa.id,
              reseller_id := rs.id, created_by_new_panel := false,
              api_response_data := r.payload }, ?_, rfl, rfl⟩
    simp
/-- Unfolding of the loop on a cons cell. -/
theorem syncLoop_cons (rs : Reseller) (pa : MarzbanPanel) (st : SyncState)
    (r : RemoteUserRecord) (rest : List RemoteUserRecord) :
    syncLoop rs pa st (r :: rest) = syncLoop rs pa (syncStep rs pa st r) rest := rfl

/-- The whole loop never removes a key. -/
theorem syncLoop_preserves_key (rs : Reseller) (pa : MarzbanPanel)
    (records : List RemoteUserRecord) (st : SyncState) (u : String) (pid : Nat)
    (h : keyPresent st.db u pid) :
    keyPresent (syncLoop rs pa st records).db u pid := by
  induction records generalizing st with
  | nil => exact h
  | cons r rest ih =>
      exact ih (syncStep rs pa st r) (syncStep_preserves_key rs pa st r u pid h)

/-- After the loop, every listed record with a truthy username is mirrored. -/
theorem syncLoop_adds_keys (rs : Reseller) (pa : MarzbanPanel)
    (records : List RemoteUserRecord) (st : SyncState)
    (r : RemoteUserRecord) (u : String)
    (hr : r ∈ records) (hu : truthyStr r.username = some u) :
    keyPresent (syncLoop rs pa st records).db u pa.id := by
  revert hr
  induction records generalizing st with
  | nil => intro hr; cases hr
  | cons r0 rest ih =>
      intro hr
      rcases List.mem_cons.mp hr with heq | hr2
      · subst heq
        exact syncLoop_preserves_key rs pa rest (syncStep rs pa st r) u pa.id
          (syncStep_adds_key rs pa st r u hu)
      · exact ih (syncStep rs pa st r0) hr2

/-- A record with a falsy username changes neither counter. -/
theorem syncStep_counts_no_username (rs : Reseller) (pa : MarzbanPanel)
    (st : SyncState) (r : RemoteUserRecord)
    (htr : truthyStr r.username = none) :
    (syncStep rs pa st r).newly_added_count = st.newly_added_count ∧
    (syncStep rs pa st r).updated_count = st.updated_count := by
  unfold syncStep
  rw [htr]
  exact ⟨rfl, rfl⟩

/-- A record whose key is already mirrored increments only updated_count. -/
theorem syncStep_counts_update (rs : Reseller) (pa : MarzbanPanel)
    (st : SyncState) (r : RemoteUserRecord) (u : String) (row : MirrorRow)
    (htr : truthyStr r.username = some u)
    (hrow : get_marzban_user_by_username_and_panel st.db u pa.id = some row) :
    (syncStep rs pa st r).newly_added_count = st.newly_added_count ∧
    (syncStep rs pa st r).updated_count = st.updated_count + 1 := by
  unfold syncStep
  rw [htr]
  dsimp only
  rw [hrow]
  exact ⟨rfl, rfl⟩

/-- When every listed truthy username is already mirrored, the loop adds
nothing and updates one row per truthy-username record. -/
theorem syncLoop_counts_when_all_present (rs : Reseller) (pa : MarzbanPanel)
    (records : List RemoteUserRecord) (st : SyncState)
    (h : ∀ r ∈ records, ∀ u, truthyStr r.username = some u → keyPresent st.db u pa.id) :
    (syncLoop rs pa st records).newly_added_count = st.newly_added_count ∧
    (syncLoop rs pa st records).updated_count =
      st.updated_count + records.countP (fun r => (truthyStr r.username).isSome) := by
  induction records generalizing st with
  | nil => simp [syncLoop]
  | cons r rest ih =>
      have hinv : ∀ r2 ∈ rest, ∀ u2, truthyStr r2.username = some u2 →
          keyPresent (syncStep rs pa st r).db u2 pa.id :=
        fun r2 hr2 u2 hu2 =>
          syncStep_preserves_key rs pa st r u2 pa.id
            (h r2 (List.mem_cons_of_mem r hr2) u2 hu2)
      obtain ⟨t1, t2⟩ := ih (syncStep rs pa st r) hinv
      rw [syncLoop_cons]
      cases htr : truthyStr r.username with
      | none =>
          obtain ⟨s1, s2⟩ := syncStep_counts_no_username rs pa st r htr
          refine ⟨by rw [t1, s1], ?_⟩
          rw [t2, s2, List.countP_cons]
          simp [htr]
      | some u =>
          have hp := h r (List.mem_cons_self r rest) u htr
          obtain ⟨row, hrow⟩ :=
            Option.isSome_iff_exists.mp ((syncLookup_isSome_iff st.db u pa.id).mpr hp)
          obtain ⟨s1, s2⟩ := syncStep_counts_update rs pa st r u row htr hrow
          refine ⟨by rw [t1, s1], ?_⟩
          rw [t2, s2, List.countP_cons]
          simp [htr]
          omega

/-- Each iteration increments exactly one of the two counters or the error
list. -/
theorem syncStep_sum (rs : Reseller) (pa : MarzbanPanel)
    (st : SyncState) (r : RemoteUserRecord) :
    (syncStep rs pa st r).newly_added_count + (syncStep rs pa st r).updated_count
        + (syncStep rs pa st r).errors.length =
      st.newly_added_count + st.updated_count + st.errors.length + 1 := by
  unfold syncStep
  split
  · simp
    omega
  · split
    · simp
      omega
    · simp
      omega

/-- The loop distributes the record count over the two counters and the
error list. -/
theorem syncLoop_sum (rs : Reseller) (pa : MarzbanPanel)
    (records : List RemoteUserRecord) (st : SyncState) :
    (syncLoop rs pa st records).newly_added_count
        + (syncLoop rs pa st records).updated_count
        + (syncLoop rs pa st records).errors.length =
      st.newly_added_count + st.updated_count + st.errors.length + records.length := by
  induction records generalizing st with
  | nil => simp [syncLoop]
  | cons r rest ih =>
      rw [syncLoop_cons]
      rw [ih (syncStep rs pa st r), syncStep_sum]
      simp
      omega
/-- Sample remote records for the sync witnesses. -/
def recAlice : RemoteUserRecord := { username := some "alice", payload := "payloadA" }

def recNoName : RemoteUserRecord := { username := none, payload := "payloadB" }

def syncEnvSample : SyncEnv :=
  { decrypted_password := some "pw", token := some "tok",
    api_users := .ok [recAlice, recNoName] }

def syncEnvNoName : SyncEnv :=
  { decrypted_password := some "pw", token := some "tok",
    api_users := .ok [recNoName] }

/-- With credentials, token and listing in hand, the sync is the loop over
the listed records starting from zeroed counters. -/
theorem sync_reduces (env : SyncEnv) (db : List MirrorRow)
    (reseller : Reseller) (panel : MarzbanPanel)
    (records : List RemoteUserRecord) (pw tok : String)
    (hpw : env.decrypted_password = some pw)
    (htok : truthyStr env.token = some tok)
    (hrec : env.api_users = .ok records) :
    sync_marzban_users_for_reseller_panel env db reseller panel =
      .ok ((syncLoop reseller panel ⟨db, 0, 0, []⟩ records).db,
           { total_users_from_api := records.length,
             newly_added_count := (syncLoop reseller panel ⟨db, 0, 0, []⟩ records).newly_added_count,
             updated_count := (syncLoop reseller panel ⟨db, 0, 0, []⟩ records).updated_count,
             errors := (syncLoop reseller panel ⟨db, 0, 0, []⟩ records).errors }) := by
  unfold sync_marzban_users_for_reseller_panel
  rw [hpw]
  dsimp only
  rw [htok]
  dsimp only
  rw [hrec]

/-- C10: in every sync run whose remote listing succeeds, each listed
record increments exactly one of newly_added_count, updated_count, or the
error list, so total_users_from_api = newly_added_count + updated_count +
number of errors in the returned summary. -/
theorem C10_sync_partition (env : SyncEnv) (db : List MirrorRow)
    (reseller : Reseller) (panel : MarzbanPanel)
    (records : List RemoteUserRecord) (pw tok : String)
    (db2 : List MirrorRow) (summary : SyncSummary)
    (hpw : env.decrypted_password = some pw)
    (htok : truthyStr env.token = some tok)
    (hrec : env.api_users = .ok records)
    (hrun : sync_marzban_users_for_reseller_panel env db reseller panel = .ok (db2, summary)) :
    summary.total_users_from_api =
      summary.newly_added_count + summary.updated_count + summary.errors.length := by
  rw [sync_reduces env db reseller panel records pw tok hpw htok hrec] at hrun
  simp at hrun
  obtain ⟨-, hsum⟩ := hrun
  rw [← hsum]
  dsimp only
  have := syncLoop_sum reseller panel records ⟨db, 0, 0, []⟩
  simp at this
  omega

/-- C9 (amended): running the sync twice with the same remote listing
yields newly_added_count = 0 on the second run, and updated_count equal to
the number of listed remote records that carry a (non-empty) username;
records with a missing username are counted as per-item errors on every
run and are never mirrored. -/
theorem C9_second_sync (env : SyncEnv) (db0 : List MirrorRow)
    (reseller : Reseller) (panel : MarzbanPanel)
    (records : List RemoteUserRecord) (pw tok : String)
    (db1 db2 : List MirrorRow) (s1 s2 : SyncSummary)
    (hpw : env.decrypted_password = some pw)
    (htok : truthyStr env.token = some tok)
    (hrec : env.api_users = .ok records)
    (h1 : sync_marzban_users_for_reseller_panel env db0 reseller panel = .ok (db1, s1))
    (h2 : sync_marzban_users_for_reseller_panel env db1 reseller panel = .ok (db2, s2)) :
    s2.newly_added_count = 0 ∧
    s2.updated_count = records.countP (fun r => (truthyStr r.username).isSome) := by
  rw [sync_reduces env db0 reseller panel records pw tok hpw htok hrec] at h1
  rw [sync_reduces env db1 reseller panel records pw tok hpw htok hrec] at h2
  simp at h1 h2
  obtain ⟨hdb1, -⟩ := h1
  obtain ⟨-, hs2⟩ := h2
  have hinv : ∀ r ∈ records, ∀ u, truthyStr r.username = some u →
      keyPresent (⟨db1, 0, 0, []⟩ : SyncState).db u panel.id := by
    intro r hr u hu
    show keyPresent db1 u panel.id
    rw [← hdb1]
    exact syncLoop_adds_keys reseller panel records ⟨db0, 0, 0, []⟩ r u hr hu
  obtain ⟨hn, hu⟩ :=
    syncLoop_counts_when_all_present reseller panel records ⟨db1, 0, 0, []⟩ hinv
  refine ⟨?_, ?_⟩ <;> rw [← hs2] <;> dsimp only
  · rw [hn]
  · rw [hu]
    simp
/-- C10 witness: two listed records, one of them without a username. -/
theorem C10_sync_partition_witness :
    syncEnvSample.decrypted_password = some "pw" ∧
    truthyStr syncEnvSample.token = some "tok" ∧
    syncEnvSample.api_users = .ok [recAlice, recNoName] ∧
    sync_marzban_users_for_reseller_panel syncEnvSample [] reseller10 panel1 =
      .ok ([{ marzban_username := "alice", marzban_panel_id := 1, reseller_id := 1,
              created_by_new_panel := false, api_response_data := "payloadA" }],
           { total_users_from_api := 2, newly_added_count := 1, updated_count := 0,
             errors := ["User data from API missing username: payloadB"] }) ∧
    (2 : Nat) = 1 + 0 + (["User data from API missing username: payloadB"] : List String).length :=
  ⟨rfl, rfl, rfl, rfl,
   C10_sync_partition syncEnvSample [] reseller10 panel1 [recAlice, recNoName] "pw" "tok"
     [{ marzban_username := "alice", marzban_panel_id := 1, reseller_id := 1,
        created_by_new_panel := false, api_response_data := "payloadA" }]
     { total_users_from_api := 2, newly_added_count := 1, updated_count := 0,
       errors := ["User data from API missing username: payloadB"] }
     rfl rfl rfl rfl⟩

/-- C9 witness: the same two-record listing run twice. -/
theorem C9_second_sync_witness :
    syncEnvSample.decrypted_password = some "pw" ∧
    truthyStr syncEnvSample.token = some "tok" ∧
    syncEnvSample.api_users = .ok [recAlice, recNoName] ∧
    sync_marzban_users_for_reseller_panel syncEnvSample [] reseller10 panel1 =
      .ok ([{ marzban_username := "alice", marzban_panel_id := 1, reseller_id := 1,
              created_by_new_panel := false, api_response_data := "payloadA" }],
           { total_users_from_api := 2, newly_added_count := 1, updated_count := 0,
             errors := ["User data from API missing username: payloadB"] }) ∧
    sync_marzban_users_for_reseller_panel syncEnvSample
        [{ marzban_username := "alice", marzban_panel_id := 1, reseller_id := 1,
           created_by_new_panel := false, api_response_data := "payloadA" }]
        reseller10 panel1 =
      .ok ([{ marzban_username := "alice", marzban_panel_id := 1, reseller_id := 1,
              created_by_new_panel := false, api_response_data := "payloadA" }],
           { total_users_from_api := 2, newly_added_count := 0, updated_count := 1,
             errors := ["User data from API missing username: payloadB"] }) ∧
    ((0 : Nat) = 0 ∧
     (1 : Nat) = ([recAlice, recNoName].countP (fun r => (truthyStr r.username).isSome))) :=
  ⟨rfl, rfl, rfl, rfl, rfl,
   C9_second_sync syncEnvSample [] reseller10 panel1 [recAlice, recNoName] "pw" "tok"
     [{ marzban_username := "alice", marzban_panel_id := 1, reseller_id := 1,
        created_by_new_panel := false, api_response_data := "payloadA" }]
     [{ marzban_username := "alice", marzban_panel_id := 1, reseller_id := 1,
        created_by_new_panel := false, api_response_data := "payloadA" }]
     { total_users_from_api := 2, newly_added_count := 1, updated_count := 0,
       errors := ["User data from API missing username: payloadB"] }
     { total_users_from_api := 2, newly_added_count := 0, updated_count := 1,
       errors := ["User data from API missing username: payloadB"] }
     rfl rfl rfl rfl rfl⟩

/-- C9 counterexample: a listing consisting of one record without a
username: on the second run newly_added_count = 0 holds, but updated_count
= 0 differs from total_users_from_api = 1, because the record is skipped
with a per-item error instead of being refreshed. -/
theorem C9_username_missing_counterexample :
    sync_marzban_users_for_reseller_panel syncEnvNoName [] reseller10 panel1 =
      .ok ([], { total_users_from_api := 1, newly_added_count := 0, updated_count := 0,
                 errors := ["User data from API missing username: payloadB"] }) ∧
    sync_marzban_users_for_reseller_panel syncEnvNoName [] reseller10 panel1 =
      .ok ([], { total_users_from_api := 1, newly_added_count := 0, updated_count := 0,
                 errors := ["User data from API missing username: payloadB"] }) ∧
    (0 : Nat) ≠ 1 :=
  ⟨rfl, rfl, by decide⟩

end Haned
